import Mathlib

/-
Verification of the WebRTC goog_cc ProbeController against its specification.

The data model (configuration fields, state fields and their in-class default
values, event signatures and return types) is taken from the header
`modules/congestion_controller/goog_cc/probe_controller.h` (src/unnamed/part_000).
The bodies of the event methods live in `probe_controller.cc`, which is not part
of the source snapshot; their behaviour is therefore modelled from the
specification (spec.md §4) and every definition whose body is not derivable from
the header says so in its doc comment.

Conventions: timestamps and rates are exact rationals (seconds / abstract rate
units); the `DataRate::PlusInfinity`, `Timestamp::MinusInfinity` and
`absl::optional` sentinels of the source are encoded as `Option ℚ`, with the
intended reading given field by field on `ProbeControllerState`.
-/

set_option linter.unusedVariables false
set_option maxHeartbeats 1000000

namespace WebRTC

/-- Tunables of the probe controller: one field per `FieldTrialParameter` /
`FieldTrialOptional` member of `ProbeControllerConfig` in `probe_controller.h`
lines 42-79. Optional parameters are `Option ℚ`. -/
structure ProbeControllerConfig where
  first_exponential_probe_scale : ℚ
  second_exponential_probe_scale : Option ℚ
  further_exponential_probe_scale : ℚ
  further_probe_threshold : ℚ
  alr_probing_interval : ℚ
  alr_probe_scale : ℚ
  network_state_estimate_probing_interval : ℚ
  network_state_estimate_fast_rampup_rate : ℚ
  network_state_estimate_drop_down_rate : ℚ
  network_state_probe_scale : ℚ
  network_state_probe_duration : ℚ
  first_allocation_probe_scale : Option ℚ
  second_allocation_probe_scale : Option ℚ
  allocation_allow_further_probing : Bool
  allocation_probe_max : ℚ
  min_probe_packets_sent : ℕ
  min_probe_duration : ℚ
  limit_probe_target_rate_to_loss_bwe : Bool
  skip_if_estimate_larger_than_fraction_of_max : ℚ
  deriving DecidableEq, Repr

/-- The tri-state probing phase, `ProbeController::State` of the header
(lines 134-141). -/
inductive State where
  | kInit
  | kWaitingForProbingResult
  | kProbingComplete
  deriving DecidableEq, Repr

@[simp] lemma State.init_ne_waiting :
    (State.kInit = State.kWaitingForProbingResult) = False :=
  eq_false fun h => State.noConfusion h

@[simp] lemma State.init_ne_complete :
    (State.kInit = State.kProbingComplete) = False :=
  eq_false fun h => State.noConfusion h

@[simp] lemma State.waiting_ne_init :
    (State.kWaitingForProbingResult = State.kInit) = False :=
  eq_false fun h => State.noConfusion h

@[simp] lemma State.waiting_ne_complete :
    (State.kWaitingForProbingResult = State.kProbingComplete) = False :=
  eq_false fun h => State.noConfusion h

@[simp] lemma State.complete_ne_init :
    (State.kProbingComplete = State.kInit) = False :=
  eq_false fun h => State.noConfusion h

@[simp] lemma State.complete_ne_waiting :
    (State.kProbingComplete = State.kWaitingForProbingResult) = False :=
  eq_false fun h => State.noConfusion h

/-- An emitted probe cluster descriptor (`ProbeClusterConfig`): emission time,
target rate, minimum duration, minimum packet count and the cluster id. -/
structure ProbeClusterConfig where
  at_time : ℚ
  target_data_rate : ℚ
  target_duration : ℚ
  target_probe_count : ℕ
  id : ℤ
  deriving DecidableEq, Repr

/-- Mutable state of a `ProbeController`: one field per data member of the class
in `probe_controller.h` lines 152-179 (the `mid_call_probing_*` members, which
only feed a metric and never influence emission, are omitted; the immutable
`config_` and `event_log_` are kept outside the state). Sentinel encoding:
`none` stands for `+∞` in `min_bitrate_to_probe_further` and `max_bitrate`, for
`-∞` in `time_last_probing_initiated` and `time_of_last_large_drop`, and for an
absent optional in `network_estimate` (retained as its `link_capacity_upper`
field), `alr_start_time` and `alr_end_time`. -/
structure ProbeControllerState where
  network_available : Bool
  bwe_limited_due_to_packet_loss : Bool
  state : State
  min_bitrate_to_probe_further : Option ℚ
  time_last_probing_initiated : Option ℚ
  estimated_bitrate : ℚ
  send_probe_on_next_process_interval : Bool
  network_estimate : Option ℚ
  start_bitrate : ℚ
  max_bitrate : Option ℚ
  last_bwe_drop_probing_time : ℚ
  alr_start_time : Option ℚ
  alr_end_time : Option ℚ
  enable_periodic_alr_probing : Bool
  time_of_last_large_drop : Option ℚ
  bitrate_before_last_large_drop : ℚ
  max_total_allocated_bitrate : ℚ
  in_rapid_recovery_experiment : Bool
  next_probe_cluster_id : ℤ
  deriving DecidableEq, Repr

/-- Construction defaults: the in-class initializers of `probe_controller.h`
lines 155-177 (`min_bitrate_to_probe_further_ = PlusInfinity`,
`time_last_probing_initiated_ = MinusInfinity`, `estimated_bitrate_ = 0`,
`start_bitrate_ = 0`, `max_bitrate_ = PlusInfinity`,
`last_bwe_drop_probing_time_ = 0`, `time_of_last_large_drop_ = MinusInfinity`,
`bitrate_before_last_large_drop_ = 0`, `max_total_allocated_bitrate_ = 0`,
`next_probe_cluster_id_ = 1`) together with the spec §3 defaults for the
constructor-initialized flags (`network_available = false`, flags false).
`in_rapid_recovery_experiment_` is a construction constant derived from the
field trials and is kept as a parameter. -/
def initState (in_rapid : Bool) : ProbeControllerState where
  network_available := false
  bwe_limited_due_to_packet_loss := false
  state := State.kInit
  min_bitrate_to_probe_further := none
  time_last_probing_initiated := none
  estimated_bitrate := 0
  send_probe_on_next_process_interval := false
  network_estimate := none
  start_bitrate := 0
  max_bitrate := none
  last_bwe_drop_probing_time := 0
  alr_start_time := none
  alr_end_time := none
  enable_periodic_alr_probing := false
  time_of_last_large_drop := none
  bitrate_before_last_large_drop := 0
  max_total_allocated_bitrate := 0
  in_rapid_recovery_experiment := in_rapid
  next_probe_cluster_id := 1

/-- Probe-cluster timeout of spec §4.1.10 / §4.6: `kProbeClusterTimeout = 5 s`. -/
def kProbeClusterTimeout : ℚ := 5

/-- Clamp a requested probe rate to the stored maximum; a `none` maximum is `+∞`
and never clamps (step 3 of the common emission path, spec §4.5). -/
def clamp_to_max (r : ℚ) : Option ℚ → ℚ
  | none => r
  | some mx => min r mx

/-- True when a rate is strictly below the (possibly infinite) stored maximum. -/
def below_max (r : ℚ) : Option ℚ → Bool
  | none => true
  | some mx => decide (r < mx)

/-- Rate the skip rule compares against the fraction of the maximum: the
current estimate, lowered to the network-state `link_capacity_upper` when an
estimate is known (spec §3 invariant 6). -/
def ProbeControllerState.estimate_to_compare (s : ProbeControllerState) : ℚ :=
  match s.network_estimate with
  | none => s.estimated_bitrate
  | some cap => min s.estimated_bitrate cap

/-- Modelled from the spec: the skip rule of invariant 6 / §4.5 step 2 of
spec.md, whose implementation is in the missing `probe_controller.cc`
(config field `skip_if_estimate_larger_than_fraction_of_max`, header lines
77-79): probing is suppressed when
`skip_fraction * max_bitrate ≤ min(estimated_bitrate, link_capacity_upper)`;
an infinite `max_bitrate` never triggers it. -/
def skip_probing (cfg : ProbeControllerConfig) (s : ProbeControllerState) : Bool :=
  match s.max_bitrate with
  | none => false
  | some mx =>
      decide (cfg.skip_if_estimate_larger_than_fraction_of_max * mx ≤ s.estimate_to_compare)

/-- ALR-activity predicate of spec §4.1.6: an ALR start time is stored and
either no end time is stored or the stored end precedes the start. -/
def ProbeControllerState.alr_active (s : ProbeControllerState) : Bool :=
  match s.alr_start_time with
  | none => false
  | some ts =>
      match s.alr_end_time with
      | none => true
      | some te => decide (te < ts)

/-- Rate-limit guard shared by the periodic probing paths: the last probing
initiation is at least `interval` in the past (`-∞`, i.e. `none`, always
passes). -/
def rate_limit_ok (tlpi : Option ℚ) (interval at_time : ℚ) : Bool :=
  match tlpi with
  | none => true
  | some t0 => decide (interval ≤ at_time - t0)

/-- True when an optionally-stored old maximum is finite and strictly below a
new one ("the new max strictly exceeds the old max", spec §4.1.1; a `none` old
maximum is `+∞` and is never exceeded). -/
def old_max_exceeded (old_max : Option ℚ) (new_max : ℚ) : Bool :=
  match old_max with
  | none => false
  | some om => decide (om < new_max)

/-- True when the follow-up threshold is finite and the estimate reaches it
(`bitrate ≥ min_bitrate_to_probe_further`, spec §4.1.4; a `none` threshold is
`+∞` and is never reached). -/
def meets_threshold (threshold : Option ℚ) (bitrate : ℚ) : Bool :=
  match threshold with
  | none => false
  | some m => decide (m ≤ bitrate)

/-- Rapid-recovery guard of spec §4.1.4: more than one second since the last
recorded large drop (a `none` record is `-∞` and always passes). -/
def large_drop_guard (time_of_last_large_drop : Option ℚ) (at_time : ℚ) : Bool :=
  match time_of_last_large_drop with
  | none => true
  | some td => decide (1 < at_time - td)

/-- Timeout guard of spec §4.1.10 step 1:
`at_time - time_last_probing_initiated > kProbeClusterTimeout` (true when the
stored time is `-∞`). -/
def timeout_due (tlpi : Option ℚ) (at_time : ℚ) : Bool :=
  match tlpi with
  | none => true
  | some t0 => decide (kProbeClusterTimeout < at_time - t0)

/-- Loss-limited clamping, step 1 of the common emission path (spec §4.5):
when `limit_probe_target_rate_to_loss_bwe` is set and the estimator reported a
loss-limited state, a requested rate is capped at the current estimate. -/
def loss_adjusted (cfg : ProbeControllerConfig) (s : ProbeControllerState)
    (r : ℚ) : ℚ :=
  if cfg.limit_probe_target_rate_to_loss_bwe && s.bwe_limited_due_to_packet_loss then
    min r s.estimated_bitrate
  else r

/-- Requested rates after loss-limited clamping and clamping to the maximum
(steps 1 and 3 of spec §4.5). -/
def adjusted_rates (cfg : ProbeControllerConfig) (s : ProbeControllerState)
    (bitrates_to_probe : List ℚ) : List ℚ :=
  bitrates_to_probe.map fun r => clamp_to_max (loss_adjusted cfg s r) s.max_bitrate

/-- Cluster duration written into an emission: `network_state_probe_duration`
overrides `min_probe_duration` while a network-state estimate is active
(spec §3 and §4.4). -/
def probe_duration (cfg : ProbeControllerConfig) (s : ProbeControllerState) : ℚ :=
  if s.network_estimate.isSome then cfg.network_state_probe_duration
  else cfg.min_probe_duration

/-- Cluster list built by the emission loop of spec §4.5 step 4: one cluster
per adjusted rate, with consecutive ids starting at `first_id`. -/
def mk_clusters (now dur : ℚ) (cnt : ℕ) (first_id : ℤ) :
    List ℚ → List ProbeClusterConfig
  | [] => []
  | r :: rs =>
      { at_time := now, target_data_rate := r, target_duration := dur,
        target_probe_count := cnt, id := first_id } ::
        mk_clusters now dur cnt (first_id + 1) rs

namespace ProbeController

/-- Modelled from the spec: the common emission path
`ProbeController::InitiateProbing` (declared in the header lines 145-148, body
in the missing `probe_controller.cc`), following spec §4.5 plus invariant 4
(no probe is ever emitted while the network is unavailable): loss-limited
clamping, the skip rule (dropping the whole batch and moving to
`kProbingComplete`), clamping to `max_bitrate`, consecutive cluster ids, and
the final state/threshold update driven by `probe_further`. -/
def InitiateProbing (cfg : ProbeControllerConfig) (s : ProbeControllerState)
    (now : ℚ) (bitrates_to_probe : List ℚ) (probe_further : Bool) :
    List ProbeClusterConfig × ProbeControllerState :=
  if s.network_available = false then ([], s)
  else if skip_probing cfg s then ([], { s with state := State.kProbingComplete })
  else if bitrates_to_probe.isEmpty then ([], s)
  else if probe_further then
    (mk_clusters now (probe_duration cfg s) cfg.min_probe_packets_sent
        s.next_probe_cluster_id (adjusted_rates cfg s bitrates_to_probe),
      { s with
        next_probe_cluster_id :=
          s.next_probe_cluster_id + ((adjusted_rates cfg s bitrates_to_probe).length : ℤ)
        time_last_probing_initiated := some now
        state := State.kWaitingForProbingResult
        min_bitrate_to_probe_further :=
          some ((adjusted_rates cfg s bitrates_to_probe).getLastD 0 *
            cfg.further_probe_threshold) })
  else
    (mk_clusters now (probe_duration cfg s) cfg.min_probe_packets_sent
        s.next_probe_cluster_id (adjusted_rates cfg s bitrates_to_probe),
      { s with
        next_probe_cluster_id :=
          s.next_probe_cluster_id + ((adjusted_rates cfg s bitrates_to_probe).length : ℤ)
        time_last_probing_initiated := some now
        state := State.kProbingComplete
        min_bitrate_to_probe_further := none })

end ProbeController

/-- Rates of the initial exponential probes (spec §4.2):
`start_bitrate * first_exponential_probe_scale` and, when the second scale is
configured, also `start_bitrate * second_exponential_probe_scale`. -/
def exp_probe_rates (cfg : ProbeControllerConfig) (start_bitrate : ℚ) : List ℚ :=
  start_bitrate * cfg.first_exponential_probe_scale ::
    (match cfg.second_exponential_probe_scale with
     | none => []
     | some p2 => [start_bitrate * p2])

/-- Largest of the initial exponential probe rates (spec §4.2 sets the
follow-up threshold from the largest emitted rate). -/
def largest_exp_probe_rate (cfg : ProbeControllerConfig) (start_bitrate : ℚ) : ℚ :=
  match cfg.second_exponential_probe_scale with
  | none => start_bitrate * cfg.first_exponential_probe_scale
  | some p2 => max (start_bitrate * cfg.first_exponential_probe_scale) (start_bitrate * p2)

namespace ProbeController

/-- Modelled from the spec: `ProbeController::InitiateExponentialProbing`
(header lines 143-144, body in the missing `probe_controller.cc`), spec §4.2:
the one or two initial probes of `exp_probe_rates`, with further probing
allowed. -/
def InitiateExponentialProbing (cfg : ProbeControllerConfig)
    (s : ProbeControllerState) (at_time : ℚ) :
    List ProbeClusterConfig × ProbeControllerState :=
  InitiateProbing cfg s at_time (exp_probe_rates cfg s.start_bitrate) true

/-- Modelled from the spec: `ProbeController::SetBitrates` (header lines 94-98,
body in the missing `probe_controller.cc`), spec §4.1.1 and §7 `InvalidRange`:
an invalid range (`min > start`, `start > max` or a negative rate) is ignored
wholesale; otherwise start/max are stored and, depending on the state, initial
exponential probing begins, nothing is emitted, or a raise of the maximum emits
one probe at `min(estimated_bitrate * further_exponential_probe_scale, new_max)`
(the spec's simpler always-probe-on-max-increase policy). -/
def SetBitrates (cfg : ProbeControllerConfig) (s : ProbeControllerState)
    (min_bitrate start_bitrate max_bitrate at_time : ℚ) :
    List ProbeClusterConfig × ProbeControllerState :=
  if min_bitrate < 0 ∨ start_bitrate < 0 ∨ max_bitrate < 0 ∨
      start_bitrate < min_bitrate ∨ max_bitrate < start_bitrate then
    ([], s)
  else
    let old_max := s.max_bitrate
    let s1 := { s with start_bitrate := start_bitrate, max_bitrate := some max_bitrate }
    match s1.state with
    | State.kInit =>
        if s1.network_available ∧ 0 < start_bitrate then
          InitiateExponentialProbing cfg s1 at_time
        else ([], s1)
    | State.kWaitingForProbingResult => ([], s1)
    | State.kProbingComplete =>
        if old_max_exceeded old_max max_bitrate = true ∧
            s1.estimated_bitrate < max_bitrate then
          InitiateProbing cfg s1 at_time
            [min (s1.estimated_bitrate * cfg.further_exponential_probe_scale) max_bitrate]
            true
        else ([], s1)

/-- Modelled from the spec: `ProbeController::OnMaxTotalAllocatedBitrate`
(header lines 102-104, body in the missing `probe_controller.cc`), spec §4.1.2:
on an allocation increase in `kProbingComplete` with the estimate below the
maximum and a first allocation scale configured, up to two probes capped by
`allocation_probe_max` are emitted with `probe_further` taken from
`allocation_allow_further_probing`; the new allocation is stored last. -/
def OnMaxTotalAllocatedBitrate (cfg : ProbeControllerConfig)
    (s : ProbeControllerState) (max_total_allocated_bitrate at_time : ℚ) :
    List ProbeClusterConfig × ProbeControllerState :=
  match cfg.first_allocation_probe_scale with
  | none => ([], { s with max_total_allocated_bitrate := max_total_allocated_bitrate })
  | some p1 =>
      if s.max_total_allocated_bitrate < max_total_allocated_bitrate ∧
          s.state = State.kProbingComplete ∧
          below_max s.estimated_bitrate s.max_bitrate = true then
        let rates := min (max_total_allocated_bitrate * p1) cfg.allocation_probe_max ::
          (match cfg.second_allocation_probe_scale with
           | none => []
           | some p2 => [min (max_total_allocated_bitrate * p2) cfg.allocation_probe_max])
        let r := InitiateProbing cfg s at_time rates cfg.allocation_allow_further_probing
        (r.1, { r.2 with max_total_allocated_bitrate := max_total_allocated_bitrate })
      else ([], { s with max_total_allocated_bitrate := max_total_allocated_bitrate })

/-- Modelled from the spec: `ProbeController::OnNetworkAvailability` (header
lines 106-107, body in the missing `probe_controller.cc`), spec §4.1.3: the
availability flag is stored; a false-to-true transition in `kInit` with a
positive stored start bitrate begins initial exponential probing; nothing is
emitted otherwise. -/
def OnNetworkAvailability (cfg : ProbeControllerConfig)
    (s : ProbeControllerState) (network_available : Bool) (at_time : ℚ) :
    List ProbeClusterConfig × ProbeControllerState :=
  let s1 := { s with network_available := network_available }
  if s.network_available = false ∧ network_available = true ∧
      s1.state = State.kInit ∧ 0 < s1.start_bitrate then
    InitiateExponentialProbing cfg s1 at_time
  else ([], s1)

/-- Modelled from the spec: `ProbeController::SetEstimatedBitrate` (header
lines 109-112, body in the missing `probe_controller.cc`), spec §4.1.4 and the
§4.6 transitions: the loss flag is stored first; in
`kWaitingForProbingResult` an estimate at or above
`min_bitrate_to_probe_further` emits one follow-up probe at
`bitrate * further_exponential_probe_scale` with further probing allowed, while
an estimate below it completes probing; otherwise a drop below half the
previous estimate (rate-limited to one recording per second) is recorded and,
in the rapid-recovery experiment or during ALR, triggers a recovery probe at
`0.85 * bitrate_before_last_large_drop`; the new estimate is stored last. -/
def SetEstimatedBitrate (cfg : ProbeControllerConfig) (s : ProbeControllerState)
    (bitrate : ℚ) (bwe_limited_due_to_packet_loss : Bool) (at_time : ℚ) :
    List ProbeClusterConfig × ProbeControllerState :=
  let s0 := { s with bwe_limited_due_to_packet_loss := bwe_limited_due_to_packet_loss }
  if s.state = State.kWaitingForProbingResult ∧
      meets_threshold s.min_bitrate_to_probe_further bitrate = true then
    let r := InitiateProbing cfg s0 at_time
      [bitrate * cfg.further_exponential_probe_scale] true
    (r.1, { r.2 with estimated_bitrate := bitrate })
  else
    let s1 :=
      if s0.state = State.kWaitingForProbingResult then
        { s0 with state := State.kProbingComplete, min_bitrate_to_probe_further := none }
      else s0
    if bitrate < s1.estimated_bitrate / 2 ∧
        large_drop_guard s1.time_of_last_large_drop at_time = true then
      let s2 := { s1 with
        time_of_last_large_drop := some at_time
        bitrate_before_last_large_drop := s1.estimated_bitrate }
      if s2.in_rapid_recovery_experiment = true ∨ s2.alr_active = true then
        let r := InitiateProbing cfg s2 at_time
          [s2.bitrate_before_last_large_drop * (17 / 20)] false
        (r.1, { r.2 with estimated_bitrate := bitrate })
      else ([], { s2 with estimated_bitrate := bitrate })
    else ([], { s1 with estimated_bitrate := bitrate })

/-- The void toggle `ProbeController::EnablePeriodicAlrProbing` (header line
114): stores the flag, emits nothing (its `void` return type is in the
header). -/
def EnablePeriodicAlrProbing (cfg : ProbeControllerConfig)
    (s : ProbeControllerState) (enable : Bool) :
    List ProbeClusterConfig × ProbeControllerState :=
  ([], { s with enable_periodic_alr_probing := enable })

/-- The void setter `ProbeController::SetAlrStartTimeMs` (header line 116):
stores the optional ALR start time, emits nothing. -/
def SetAlrStartTimeMs (cfg : ProbeControllerConfig) (s : ProbeControllerState)
    (alr_start_time : Option ℚ) :
    List ProbeClusterConfig × ProbeControllerState :=
  ([], { s with alr_start_time := alr_start_time })

/-- The void setter `ProbeController::SetAlrEndedTimeMs` (header line 117):
stores the ALR end time, emits nothing. -/
def SetAlrEndedTimeMs (cfg : ProbeControllerConfig) (s : ProbeControllerState)
    (alr_end_time : ℚ) :
    List ProbeClusterConfig × ProbeControllerState :=
  ([], { s with alr_end_time := some alr_end_time })

/-- Modelled from the spec: `ProbeController::RequestProbe` (header lines
119-120, body in the missing `probe_controller.cc`), spec §4.1.7: guarded by
being in ALR or having left it within `alr_probing_interval`, network
availability, estimate below max, and not currently waiting for a probing
result; emits one probe at
`0.85 * min(estimated_bitrate, bitrate_before_last_large_drop)` and records the
probing time. -/
def RequestProbe (cfg : ProbeControllerConfig) (s : ProbeControllerState)
    (at_time : ℚ) : List ProbeClusterConfig × ProbeControllerState :=
  let in_or_near_alr : Bool :=
    s.alr_active ||
      (match s.alr_end_time with
       | none => false
       | some te => decide (at_time - te < cfg.alr_probing_interval))
  if in_or_near_alr = true ∧ s.network_available = true ∧
      below_max s.estimated_bitrate s.max_bitrate = true ∧
      s.state ≠ State.kWaitingForProbingResult then
    let r := InitiateProbing cfg s at_time
      [min (s.estimated_bitrate * (17 / 20)) (s.bitrate_before_last_large_drop * (17 / 20))]
      false
    (r.1, { r.2 with last_bwe_drop_probing_time := at_time })
  else ([], s)

/-- The void setter `ProbeController::SetMaxBitrate` (header lines 122-123):
stores a new maximum probing bitrate without generating a probe cluster (so
documented in the header comment). -/
def SetMaxBitrate (cfg : ProbeControllerConfig) (s : ProbeControllerState)
    (max_bitrate : ℚ) : List ProbeClusterConfig × ProbeControllerState :=
  ([], { s with max_bitrate := some max_bitrate })

/-- Modelled from the spec: the void setter
`ProbeController::SetNetworkStateEstimate` (header line 124, body in the
missing `probe_controller.cc`), spec §4.1.8: the estimate is stored and, if a
prior estimate existed and the new `link_capacity_upper` grew by a factor of at
least `network_state_estimate_fast_rampup_rate` or shrank by a factor of at
most `network_state_estimate_drop_down_rate`, the
`send_probe_on_next_process_interval` flag is raised; no probe is emitted
here. -/
def SetNetworkStateEstimate (cfg : ProbeControllerConfig)
    (s : ProbeControllerState) (link_capacity_upper : ℚ) :
    List ProbeClusterConfig × ProbeControllerState :=
  let trigger : Bool :=
    match s.network_estimate with
    | none => false
    | some old =>
        decide (cfg.network_state_estimate_fast_rampup_rate * old ≤ link_capacity_upper) ||
        decide (link_capacity_upper ≤ cfg.network_state_estimate_drop_down_rate * old)
  ([], { s with
    network_estimate := some link_capacity_upper
    send_probe_on_next_process_interval :=
      s.send_probe_on_next_process_interval || trigger })

/-- Modelled from the spec: `ProbeController::Reset` (header lines 126-128,
body in the missing `probe_controller.cc`), spec §4.1.9: every state field is
reinitialized to its construction default except `enable_periodic_alr_probing`,
the construction constant `in_rapid_recovery_experiment` and
`next_probe_cluster_id`, which must keep ids strictly increasing across
resets. -/
def Reset (cfg : ProbeControllerConfig) (s : ProbeControllerState)
    (at_time : ℚ) : List ProbeClusterConfig × ProbeControllerState :=
  ([], { initState s.in_rapid_recovery_experiment with
    enable_periodic_alr_probing := s.enable_periodic_alr_probing
    next_probe_cluster_id := s.next_probe_cluster_id })

/-- Modelled from the spec: `ProbeController::TimeForAlrProbe` (header line
149, body in the missing `probe_controller.cc`), spec §4.3: periodic ALR
probing is due when the flag is enabled, ALR is active, probing is complete,
the estimate is positive and below max, and at least `alr_probing_interval` has
passed since the last probing initiation. -/
def TimeForAlrProbe (cfg : ProbeControllerConfig) (s : ProbeControllerState)
    (at_time : ℚ) : Bool :=
  s.enable_periodic_alr_probing && s.alr_active &&
    (s.state == State.kProbingComplete) && decide (0 < s.estimated_bitrate) &&
    below_max s.estimated_bitrate s.max_bitrate &&
    rate_limit_ok s.time_last_probing_initiated cfg.alr_probing_interval at_time

/-- Modelled from the spec: `ProbeController::TimeForNetworkStateProbe` (header
line 150, body in the missing `probe_controller.cc`), spec §4.4: a
network-state probe is due when an estimate is known, probing is complete, and
at least `network_state_estimate_probing_interval` has passed since the last
probing initiation. -/
def TimeForNetworkStateProbe (cfg : ProbeControllerConfig)
    (s : ProbeControllerState) (at_time : ℚ) : Bool :=
  s.network_estimate.isSome && (s.state == State.kProbingComplete) &&
    rate_limit_ok s.time_last_probing_initiated
      cfg.network_state_estimate_probing_interval at_time

/-- Step 1 of `Process` (spec §4.1.10): while waiting for a probing result, a
timeout of more than `kProbeClusterTimeout` since the last probing initiation
completes probing and disables follow-up probing. -/
def after_timeout_check (s : ProbeControllerState) (at_time : ℚ) :
    ProbeControllerState :=
  if s.state = State.kWaitingForProbingResult ∧
      timeout_due s.time_last_probing_initiated at_time = true then
    { s with state := State.kProbingComplete, min_bitrate_to_probe_further := none }
  else s

/-- Steps 2-5 of spec §4.1.10, acting on the state produced by the timeout
check: the `send_probe_on_next_process_interval` network-state probe, then a
due periodic ALR probe at `estimated_bitrate * alr_probe_scale`, then a due
network-state probe at
`min(estimated_bitrate, link_capacity_upper) * network_state_probe_scale`
(emissions transition to `kWaitingForProbingResult` per the §4.6 diagram). -/
def process_after_timeout (cfg : ProbeControllerConfig)
    (s1 : ProbeControllerState) (at_time : ℚ) :
    List ProbeClusterConfig × ProbeControllerState :=
  match s1.network_estimate with
  | some cap =>
      if s1.send_probe_on_next_process_interval = true then
        InitiateProbing cfg { s1 with send_probe_on_next_process_interval := false }
          at_time [min s1.estimated_bitrate cap * cfg.network_state_probe_scale] true
      else if TimeForAlrProbe cfg s1 at_time = true then
        InitiateProbing cfg s1 at_time
          [s1.estimated_bitrate * cfg.alr_probe_scale] true
      else if TimeForNetworkStateProbe cfg s1 at_time = true then
        InitiateProbing cfg s1 at_time
          [min s1.estimated_bitrate cap * cfg.network_state_probe_scale] true
      else ([], s1)
  | none =>
      if TimeForAlrProbe cfg s1 at_time = true then
        InitiateProbing cfg s1 at_time
          [s1.estimated_bitrate * cfg.alr_probe_scale] true
      else ([], s1)

/-- Modelled from the spec: `ProbeController::Process` (header lines 130-131,
body in the missing `probe_controller.cc`), spec §4.1.10 in order: the timeout
check of step 1, then the probing steps 2-5 of `process_after_timeout`. -/
def Process (cfg : ProbeControllerConfig) (s : ProbeControllerState)
    (at_time : ℚ) : List ProbeClusterConfig × ProbeControllerState :=
  process_after_timeout cfg (after_timeout_check s at_time) at_time

end ProbeController

/-- One call on the event surface of the controller (spec §4.1), with its
arguments; timestamps are carried by the events that take one. -/
inductive Event where
  | setBitrates (min_bitrate start_bitrate max_bitrate at_time : ℚ)
  | onMaxTotalAllocatedBitrate (total at_time : ℚ)
  | onNetworkAvailability (available : Bool) (at_time : ℚ)
  | setEstimatedBitrate (bitrate : ℚ) (bwe_limited : Bool) (at_time : ℚ)
  | enablePeriodicAlrProbing (enable : Bool)
  | setAlrStartTime (v : Option ℚ)
  | setAlrEndedTime (at_time : ℚ)
  | requestProbe (at_time : ℚ)
  | setMaxBitrate (max_bitrate : ℚ)
  | setNetworkStateEstimate (link_capacity_upper : ℚ)
  | reset (at_time : ℚ)
  | process (at_time : ℚ)
  deriving DecidableEq, Repr

/-- Dispatch of one event to the corresponding controller method. -/
def step (cfg : ProbeControllerConfig) (s : ProbeControllerState) :
    Event → List ProbeClusterConfig × ProbeControllerState
  | .setBitrates mn st mx t => ProbeController.SetBitrates cfg s mn st mx t
  | .onMaxTotalAllocatedBitrate total t =>
      ProbeController.OnMaxTotalAllocatedBitrate cfg s total t
  | .onNetworkAvailability a t => ProbeController.OnNetworkAvailability cfg s a t
  | .setEstimatedBitrate b l t => ProbeController.SetEstimatedBitrate cfg s b l t
  | .enablePeriodicAlrProbing e => ProbeController.EnablePeriodicAlrProbing cfg s e
  | .setAlrStartTime v => ProbeController.SetAlrStartTimeMs cfg s v
  | .setAlrEndedTime t => ProbeController.SetAlrEndedTimeMs cfg s t
  | .requestProbe t => ProbeController.RequestProbe cfg s t
  | .setMaxBitrate mx => ProbeController.SetMaxBitrate cfg s mx
  | .setNetworkStateEstimate c => ProbeController.SetNetworkStateEstimate cfg s c
  | .reset t => ProbeController.Reset cfg s t
  | .process t => ProbeController.Process cfg s t

/-- Controller state after a sequence of events. -/
def runState (cfg : ProbeControllerConfig) (s : ProbeControllerState) :
    List Event → ProbeControllerState
  | [] => s
  | e :: es => runState cfg (step cfg s e).2 es

/-- Concatenation, in call order, of the cluster lists returned by a sequence
of events. -/
def runOutput (cfg : ProbeControllerConfig) (s : ProbeControllerState) :
    List Event → List ProbeClusterConfig
  | [] => []
  | e :: es => (step cfg s e).1 ++ runOutput cfg (step cfg s e).2 es

/-- The list `[first_id, first_id + 1, ..., first_id + n - 1]` of `n`
consecutive ids. -/
def expected_ids (first_id : ℤ) : ℕ → List ℤ
  | 0 => []
  | n + 1 => first_id :: expected_ids (first_id + 1) n

/-- Timestamp carried by an event, when the event takes one. -/
def event_time : Event → Option ℚ
  | .setBitrates _ _ _ t => some t
  | .onMaxTotalAllocatedBitrate _ t => some t
  | .onNetworkAvailability _ t => some t
  | .setEstimatedBitrate _ _ t => some t
  | .enablePeriodicAlrProbing _ => none
  | .setAlrStartTime _ => none
  | .setAlrEndedTime t => some t
  | .requestProbe t => some t
  | .setMaxBitrate _ => none
  | .setNetworkStateEstimate _ => none
  | .reset t => some t
  | .process t => some t

/-- True exactly on `Reset` events. -/
def is_reset : Event → Bool
  | .reset _ => true
  | _ => false

/-- True when the event carries no timestamp or its timestamp is at least
`t`. -/
def event_time_ge (e : Event) (t : ℚ) : Bool :=
  match event_time e with
  | none => true
  | some u => decide (t ≤ u)

/-- True exactly on `OnNetworkAvailability` events that report the network as
available. -/
def turns_network_on : Event → Bool
  | .onNetworkAvailability a _ => a
  | _ => false

/-- True exactly on the two events that can supply a finite `max_bitrate`
(`SetBitrates` and `SetMaxBitrate`). -/
def supplies_max_bitrate : Event → Bool
  | .setBitrates _ _ _ _ => true
  | .setMaxBitrate _ => true
  | _ => false

/-- A `Process` call at `at_time` that emits a periodic ALR probe: the output
is non-empty, the ALR-probe guard of spec §4.3 held after the timeout check,
and the emission was not the flag-driven network-state probe of §4.1.10
step 2. -/
def EmitsAlrProbe (cfg : ProbeControllerConfig) (s : ProbeControllerState)
    (at_time : ℚ) : Prop :=
  (ProbeController.Process cfg s at_time).1 ≠ [] ∧
    ProbeController.TimeForAlrProbe cfg
      (ProbeController.after_timeout_check s at_time) at_time = true ∧
    ((ProbeController.after_timeout_check s at_time).send_probe_on_next_process_interval
        = false ∨
      (ProbeController.after_timeout_check s at_time).network_estimate = none)

lemma expected_ids_succ (i : ℤ) (n : ℕ) :
    expected_ids i (n + 1) = i :: expected_ids (i + 1) n := rfl

lemma expected_ids_append (i : ℤ) (m n : ℕ) :
    expected_ids i (m + n) = expected_ids i m ++ expected_ids (i + (m : ℤ)) n := by
  induction m generalizing i with
  | zero => simp [expected_ids]
  | succ m ih =>
      have h1 : m + 1 + n = (m + n) + 1 := by omega
      have h2 : i + 1 + (m : ℤ) = i + ((m + 1 : ℕ) : ℤ) := by push_cast; ring
      rw [h1, expected_ids_succ, ih, expected_ids_succ, List.cons_append, h2]

lemma mk_clusters_length (now dur : ℚ) (cnt : ℕ) (i : ℤ) (rs : List ℚ) :
    (mk_clusters now dur cnt i rs).length = rs.length := by
  induction rs generalizing i with
  | nil => rfl
  | cons r rs ih => simp [mk_clusters, ih]

lemma mk_clusters_ids (now dur : ℚ) (cnt : ℕ) (i : ℤ) (rs : List ℚ) :
    (mk_clusters now dur cnt i rs).map (·.id) = expected_ids i rs.length := by
  induction rs generalizing i with
  | nil => rfl
  | cons r rs ih => simp [mk_clusters, ih, expected_ids_succ]

lemma mk_clusters_rates (now dur : ℚ) (cnt : ℕ) (i : ℤ) (rs : List ℚ) :
    (mk_clusters now dur cnt i rs).map (·.target_data_rate) = rs := by
  induction rs generalizing i with
  | nil => rfl
  | cons r rs ih => simp [mk_clusters, ih]

namespace ProbeController

lemma InitiateProbing_next (cfg : ProbeControllerConfig) (s : ProbeControllerState)
    (now : ℚ) (bs : List ℚ) (pf : Bool) :
    (InitiateProbing cfg s now bs pf).2.next_probe_cluster_id
      = s.next_probe_cluster_id + ((InitiateProbing cfg s now bs pf).1.length : ℤ) := by
  unfold InitiateProbing
  split_ifs <;> simp [mk_clusters_length]

lemma InitiateProbing_ids (cfg : ProbeControllerConfig) (s : ProbeControllerState)
    (now : ℚ) (bs : List ℚ) (pf : Bool) :
    (InitiateProbing cfg s now bs pf).1.map (·.id)
      = expected_ids s.next_probe_cluster_id (InitiateProbing cfg s now bs pf).1.length := by
  unfold InitiateProbing
  split_ifs <;> simp [mk_clusters_length, mk_clusters_ids, expected_ids]

lemma InitiateProbing_tlpi (cfg : ProbeControllerConfig) (s : ProbeControllerState)
    (now : ℚ) (bs : List ℚ) (pf : Bool) :
    (InitiateProbing cfg s now bs pf).2.time_last_probing_initiated
        = s.time_last_probing_initiated
      ∨ (InitiateProbing cfg s now bs pf).2.time_last_probing_initiated = some now := by
  unfold InitiateProbing
  split_ifs <;> simp

lemma InitiateProbing_emit_tlpi (cfg : ProbeControllerConfig)
    (s : ProbeControllerState) (now : ℚ) (bs : List ℚ) (pf : Bool)
    (h : (InitiateProbing cfg s now bs pf).1 ≠ []) :
    (InitiateProbing cfg s now bs pf).2.time_last_probing_initiated = some now := by
  unfold InitiateProbing at h ⊢
  split_ifs at h ⊢ <;> simp_all

lemma InitiateProbing_empty (cfg : ProbeControllerConfig)
    (s : ProbeControllerState) (now : ℚ) (bs : List ℚ) (pf : Bool)
    (h : (InitiateProbing cfg s now bs pf).1 = []) :
    (InitiateProbing cfg s now bs pf).2 = s
      ∨ (InitiateProbing cfg s now bs pf).2
          = { s with state := State.kProbingComplete } := by
  unfold InitiateProbing at h ⊢
  split_ifs at h ⊢ with h1 h2 h3 h4
  · exact Or.inl rfl
  · exact Or.inr rfl
  · exact Or.inl rfl
  all_goals
    exfalso
    have hlen := congrArg List.length h
    simp only [mk_clusters_length, adjusted_rates, List.length_map,
      List.length_nil] at hlen
    simp [List.isEmpty_iff, List.length_eq_zero] at h3 hlen
    exact h3 hlen

lemma InitiateProbing_max (cfg : ProbeControllerConfig) (s : ProbeControllerState)
    (now : ℚ) (bs : List ℚ) (pf : Bool) :
    (InitiateProbing cfg s now bs pf).2.max_bitrate = s.max_bitrate := by
  unfold InitiateProbing
  split_ifs <;> simp

lemma InitiateProbing_avail (cfg : ProbeControllerConfig) (s : ProbeControllerState)
    (now : ℚ) (bs : List ℚ) (pf : Bool) :
    (InitiateProbing cfg s now bs pf).2.network_available = s.network_available := by
  unfold InitiateProbing
  split_ifs <;> simp

lemma InitiateProbing_no_network (cfg : ProbeControllerConfig)
    (s : ProbeControllerState) (now : ℚ) (bs : List ℚ) (pf : Bool)
    (h : s.network_available = false) :
    InitiateProbing cfg s now bs pf = ([], s) := by
  simp [InitiateProbing, h]

@[simp] lemma after_timeout_check_tlpi (s : ProbeControllerState) (t : ℚ) :
    (after_timeout_check s t).time_last_probing_initiated
      = s.time_last_probing_initiated := by
  unfold after_timeout_check
  split <;> rfl

@[simp] lemma after_timeout_check_next (s : ProbeControllerState) (t : ℚ) :
    (after_timeout_check s t).next_probe_cluster_id = s.next_probe_cluster_id := by
  unfold after_timeout_check
  split <;> rfl

@[simp] lemma after_timeout_check_avail (s : ProbeControllerState) (t : ℚ) :
    (after_timeout_check s t).network_available = s.network_available := by
  unfold after_timeout_check
  split <;> rfl

@[simp] lemma after_timeout_check_max (s : ProbeControllerState) (t : ℚ) :
    (after_timeout_check s t).max_bitrate = s.max_bitrate := by
  unfold after_timeout_check
  split <;> rfl

lemma TimeForAlrProbe_rate_limit (cfg : ProbeControllerConfig)
    (s : ProbeControllerState) (t : ℚ)
    (h : TimeForAlrProbe cfg s t = true) :
    rate_limit_ok s.time_last_probing_initiated cfg.alr_probing_interval t
      = true := by
  simp only [TimeForAlrProbe, Bool.and_eq_true] at h
  exact h.2

end ProbeController

lemma step_ids (cfg : ProbeControllerConfig) (s : ProbeControllerState)
    (e : Event) :
    (step cfg s e).2.next_probe_cluster_id
        = s.next_probe_cluster_id + ((step cfg s e).1.length : ℤ)
      ∧ (step cfg s e).1.map (·.id)
        = expected_ids s.next_probe_cluster_id (step cfg s e).1.length := by
  cases e <;>
    simp only [step, ProbeController.SetBitrates,
      ProbeController.OnMaxTotalAllocatedBitrate,
      ProbeController.OnNetworkAvailability, ProbeController.SetEstimatedBitrate,
      ProbeController.EnablePeriodicAlrProbing, ProbeController.SetAlrStartTimeMs,
      ProbeController.SetAlrEndedTimeMs, ProbeController.RequestProbe,
      ProbeController.SetMaxBitrate, ProbeController.SetNetworkStateEstimate,
      ProbeController.Reset, ProbeController.Process,
      ProbeController.process_after_timeout, ProbeController.after_timeout_check,
      ProbeController.InitiateExponentialProbing] <;>
    (repeat' split) <;>
    simp_all [ProbeController.InitiateProbing_next,
      ProbeController.InitiateProbing_ids, expected_ids, initState]

lemma step_tlpi (cfg : ProbeControllerConfig) (s : ProbeControllerState)
    (e : Event) (h : is_reset e = false) :
    (step cfg s e).2.time_last_probing_initiated = s.time_last_probing_initiated
      ∨ ∃ u, event_time e = some u
          ∧ (step cfg s e).2.time_last_probing_initiated = some u := by
  cases e <;> simp only [is_reset] at h <;>
    simp only [step, event_time, ProbeController.SetBitrates,
      ProbeController.OnMaxTotalAllocatedBitrate,
      ProbeController.OnNetworkAvailability, ProbeController.SetEstimatedBitrate,
      ProbeController.EnablePeriodicAlrProbing, ProbeController.SetAlrStartTimeMs,
      ProbeController.SetAlrEndedTimeMs, ProbeController.RequestProbe,
      ProbeController.SetMaxBitrate, ProbeController.SetNetworkStateEstimate,
      ProbeController.Process, ProbeController.process_after_timeout,
      ProbeController.after_timeout_check,
      ProbeController.InitiateExponentialProbing] <;>
    (repeat' split) <;>
    simp_all [ProbeController.InitiateProbing_tlpi]

lemma step_emit_tlpi (cfg : ProbeControllerConfig) (s : ProbeControllerState)
    (e : Event) (h : (step cfg s e).1 ≠ []) :
    (step cfg s e).2.time_last_probing_initiated = event_time e := by
  revert h
  cases e <;>
    simp only [step, event_time, ProbeController.SetBitrates,
      ProbeController.OnMaxTotalAllocatedBitrate,
      ProbeController.OnNetworkAvailability, ProbeController.SetEstimatedBitrate,
      ProbeController.EnablePeriodicAlrProbing, ProbeController.SetAlrStartTimeMs,
      ProbeController.SetAlrEndedTimeMs, ProbeController.RequestProbe,
      ProbeController.SetMaxBitrate, ProbeController.SetNetworkStateEstimate,
      ProbeController.Reset, ProbeController.Process,
      ProbeController.process_after_timeout, ProbeController.after_timeout_check,
      ProbeController.InitiateExponentialProbing] <;>
    (repeat' split) <;>
    intro h <;>
    simp_all [ProbeController.InitiateProbing_emit_tlpi]

lemma step_no_network (cfg : ProbeControllerConfig) (s : ProbeControllerState)
    (e : Event) (hs : s.network_available = false)
    (he : turns_network_on e = false) :
    (step cfg s e).1 = [] ∧ (step cfg s e).2.network_available = false := by
  cases e <;> simp only [turns_network_on] at he <;>
    simp only [step, ProbeController.SetBitrates,
      ProbeController.OnMaxTotalAllocatedBitrate,
      ProbeController.OnNetworkAvailability, ProbeController.SetEstimatedBitrate,
      ProbeController.EnablePeriodicAlrProbing, ProbeController.SetAlrStartTimeMs,
      ProbeController.SetAlrEndedTimeMs, ProbeController.RequestProbe,
      ProbeController.SetMaxBitrate, ProbeController.SetNetworkStateEstimate,
      ProbeController.Reset, ProbeController.Process,
      ProbeController.process_after_timeout, ProbeController.after_timeout_check,
      ProbeController.InitiateExponentialProbing] <;>
    (repeat' split) <;>
    simp_all [ProbeController.InitiateProbing_no_network, initState]

lemma expected_ids_mem_ge (i : ℤ) (n : ℕ) :
    ∀ x ∈ expected_ids i n, i ≤ x := by
  induction n generalizing i with
  | zero => intro x hx; simp [expected_ids] at hx
  | succ n ih =>
      intro x hx
      rcases List.mem_cons.mp hx with h | h
      · omega
      · have := ih (i + 1) x h
        omega

lemma expected_ids_pairwise (i : ℤ) (n : ℕ) :
    (expected_ids i n).Pairwise (· < ·) := by
  induction n generalizing i with
  | zero => exact List.Pairwise.nil
  | succ n ih =>
      refine List.Pairwise.cons (fun x hx => ?_) (ih (i + 1))
      have := expected_ids_mem_ge (i + 1) n x hx
      omega

lemma runOutput_ids (cfg : ProbeControllerConfig) :
    ∀ (es : List Event) (s : ProbeControllerState),
      (runOutput cfg s es).map (·.id)
        = expected_ids s.next_probe_cluster_id (runOutput cfg s es).length := by
  intro es
  induction es with
  | nil => intro s; rfl
  | cons e es ih =>
      intro s
      obtain ⟨h1, h2⟩ := step_ids cfg s e
      simp only [runOutput, List.map_append, List.length_append, h2,
        ih (step cfg s e).2]
      rw [expected_ids_append, h1]

lemma run_no_network (cfg : ProbeControllerConfig) :
    ∀ (es : List Event) (s : ProbeControllerState),
      s.network_available = false → (∀ e ∈ es, turns_network_on e = false) →
      runOutput cfg s es = [] := by
  intro es
  induction es with
  | nil => intro s _ _; rfl
  | cons e es ih =>
      intro s hs hall
      obtain ⟨h1, h2⟩ := step_no_network cfg s e hs (hall e (by simp))
      simp only [runOutput, h1, List.nil_append]
      exact ih (step cfg s e).2 h2 (fun e' he' => hall e' (by simp [he']))

lemma run_tlpi_lb (cfg : ProbeControllerConfig) (t1 : ℚ) :
    ∀ (es : List Event) (s : ProbeControllerState),
      (∀ e ∈ es, is_reset e = false) →
      (∀ e ∈ es, event_time_ge e t1 = true) →
      (∃ t0, s.time_last_probing_initiated = some t0 ∧ t1 ≤ t0) →
      ∃ t0, (runState cfg s es).time_last_probing_initiated = some t0 ∧ t1 ≤ t0 := by
  intro es
  induction es with
  | nil => intro s _ _ h; exact h
  | cons e es ih =>
      intro s hnr ht h
      refine ih (step cfg s e).2 (fun e' he' => hnr e' (by simp [he']))
        (fun e' he' => ht e' (by simp [he'])) ?_
      rcases step_tlpi cfg s e (hnr e (by simp)) with hh | ⟨u, hev, hh⟩
      · obtain ⟨t0, h1, h2⟩ := h
        exact ⟨t0, hh.trans h1, h2⟩
      · refine ⟨u, hh, ?_⟩
        have := ht e (by simp)
        simp only [event_time_ge, hev, decide_eq_true_eq] at this
        exact this

lemma step_max_none (cfg : ProbeControllerConfig) (s : ProbeControllerState)
    (e : Event) (hs : s.max_bitrate = none)
    (he : supplies_max_bitrate e = false) :
    (step cfg s e).2.max_bitrate = none := by
  cases e <;> simp only [supplies_max_bitrate] at he <;>
    simp only [step, ProbeController.SetBitrates,
      ProbeController.OnMaxTotalAllocatedBitrate,
      ProbeController.OnNetworkAvailability, ProbeController.SetEstimatedBitrate,
      ProbeController.EnablePeriodicAlrProbing, ProbeController.SetAlrStartTimeMs,
      ProbeController.SetAlrEndedTimeMs, ProbeController.RequestProbe,
      ProbeController.SetMaxBitrate, ProbeController.SetNetworkStateEstimate,
      ProbeController.Reset, ProbeController.Process,
      ProbeController.process_after_timeout, ProbeController.after_timeout_check,
      ProbeController.InitiateExponentialProbing] <;>
    (repeat' split) <;>
    simp_all [ProbeController.InitiateProbing_max, initState]

namespace ProbeController

lemma clamp_noop (cfg : ProbeControllerConfig) (s : ProbeControllerState) (r : ℚ)
    (hloss : (cfg.limit_probe_target_rate_to_loss_bwe
        && s.bwe_limited_due_to_packet_loss) = false)
    (hle : ∀ mx ∈ s.max_bitrate, r ≤ mx) :
    clamp_to_max (loss_adjusted cfg s r) s.max_bitrate = r := by
  rw [loss_adjusted, hloss]
  simp only [Bool.false_eq_true, if_false]
  cases hmx : s.max_bitrate with
  | none => rfl
  | some mx =>
      have := hle mx (by simp [hmx])
      simp [clamp_to_max, min_eq_left this]

lemma InitiateExponentialProbing_spec (cfg : ProbeControllerConfig)
    (s : ProbeControllerState) (t : ℚ)
    (hav : s.network_available = true)
    (hskip : skip_probing cfg s = false)
    (hloss : (cfg.limit_probe_target_rate_to_loss_bwe
        && s.bwe_limited_due_to_packet_loss) = false)
    (hmono : ∀ p2 ∈ cfg.second_exponential_probe_scale,
      s.start_bitrate * cfg.first_exponential_probe_scale ≤ s.start_bitrate * p2)
    (hclamp : ∀ mx ∈ s.max_bitrate,
      largest_exp_probe_rate cfg s.start_bitrate ≤ mx) :
    (InitiateExponentialProbing cfg s t).1.map (·.target_data_rate)
        = exp_probe_rates cfg s.start_bitrate
      ∧ (InitiateExponentialProbing cfg s t).2.state
          = State.kWaitingForProbingResult
      ∧ (InitiateExponentialProbing cfg s t).2.min_bitrate_to_probe_further
          = some (largest_exp_probe_rate cfg s.start_bitrate
              * cfg.further_probe_threshold) := by
  have hadj : adjusted_rates cfg s (exp_probe_rates cfg s.start_bitrate)
      = exp_probe_rates cfg s.start_bitrate := by
    cases h2 : cfg.second_exponential_probe_scale with
    | none =>
        have h1 : s.start_bitrate * cfg.first_exponential_probe_scale
            ≤ largest_exp_probe_rate cfg s.start_bitrate := by
          rw [largest_exp_probe_rate, h2]
        simp only [adjusted_rates, exp_probe_rates, h2, List.map_cons, List.map_nil]
        rw [clamp_noop cfg s _ hloss (fun mx hmx => (h1.trans (hclamp mx hmx)))]
    | some p2 =>
        have h1 : s.start_bitrate * cfg.first_exponential_probe_scale
            ≤ largest_exp_probe_rate cfg s.start_bitrate := by
          rw [largest_exp_probe_rate, h2]
          exact le_max_left _ _
        have hb : s.start_bitrate * p2 ≤ largest_exp_probe_rate cfg s.start_bitrate := by
          rw [largest_exp_probe_rate, h2]
          exact le_max_right _ _
        simp only [adjusted_rates, exp_probe_rates, h2, List.map_cons, List.map_nil]
        rw [clamp_noop cfg s _ hloss (fun mx hmx => (h1.trans (hclamp mx hmx))),
          clamp_noop cfg s _ hloss (fun mx hmx => (hb.trans (hclamp mx hmx)))]
  have hlast : (exp_probe_rates cfg s.start_bitrate).getLastD 0
      = largest_exp_probe_rate cfg s.start_bitrate := by
    cases h2 : cfg.second_exponential_probe_scale with
    | none => simp [exp_probe_rates, largest_exp_probe_rate, h2]
    | some p2 =>
        have := hmono p2 (by simp [h2])
        simp [exp_probe_rates, largest_exp_probe_rate, h2, max_eq_right this]
  have hne : (exp_probe_rates cfg s.start_bitrate).isEmpty = false := by
    rw [exp_probe_rates]
    rfl
  unfold InitiateExponentialProbing InitiateProbing
  rw [if_neg (by simp [hav]), if_neg (by simp [hskip]), if_neg (by simp [hne]),
    if_pos rfl]
  refine ⟨?_, rfl, ?_⟩
  · rw [mk_clusters_rates, hadj]
  · rw [hadj, hlast]

lemma Process_empty_state_min (cfg : ProbeControllerConfig)
    (s : ProbeControllerState) (t : ℚ)
    (hstate : (after_timeout_check s t).state = State.kProbingComplete)
    (hmin : (after_timeout_check s t).min_bitrate_to_probe_further = none)
    (hemp : (Process cfg s t).1 = []) :
    (Process cfg s t).2.state = State.kProbingComplete
      ∧ (Process cfg s t).2.min_bitrate_to_probe_further = none := by
  revert hemp
  unfold Process process_after_timeout
  (repeat' split) <;> intro hemp <;>
    first
      | exact ⟨hstate, hmin⟩
      | rcases InitiateProbing_empty _ _ _ _ _ hemp with h | h <;>
          rw [h] <;> exact ⟨by simpa using hstate, by simpa using hmin⟩

end ProbeController

lemma run_max_none (cfg : ProbeControllerConfig) :
    ∀ (es : List Event) (s : ProbeControllerState),
      s.max_bitrate = none → (∀ e ∈ es, supplies_max_bitrate e = false) →
      (runState cfg s es).max_bitrate = none := by
  intro es
  induction es with
  | nil => intro s h _; exact h
  | cons e es ih =>
      intro s hs hall
      exact ih (step cfg s e).2 (step_max_none cfg s e hs (hall e (by simp)))
        (fun e' he' => hall e' (by simp [he']))

/-- A concrete configuration for the concrete scenarios below, with the scale
factors of the spec §8 examples (`first_scale = 3`, `second_scale = 6`,
`further_scale = 2`, `further_probe_threshold = 0.7`,
`alr_probing_interval = 5 s`, `alr_probe_scale = 2`) and a skip fraction of
one half. -/
def cfg0 : ProbeControllerConfig where
  first_exponential_probe_scale := 3
  second_exponential_probe_scale := some 6
  further_exponential_probe_scale := 2
  further_probe_threshold := 7 / 10
  alr_probing_interval := 5
  alr_probe_scale := 2
  network_state_estimate_probing_interval := 10
  network_state_estimate_fast_rampup_rate := 2
  network_state_estimate_drop_down_rate := 1 / 2
  network_state_probe_scale := 1
  network_state_probe_duration := 3 / 20
  first_allocation_probe_scale := none
  second_allocation_probe_scale := none
  allocation_allow_further_probing := false
  allocation_probe_max := 5000
  min_probe_packets_sent := 5
  min_probe_duration := 3 / 100
  limit_probe_target_rate_to_loss_bwe := false
  skip_if_estimate_larger_than_fraction_of_max := 1 / 2

/-- Scenario prefix: the network comes up, bitrates are configured (initial
probes at t = 0), the first estimate ends the exponential chain, and periodic
ALR probing is enabled with ALR active from t = 1. -/
def demo_esA : List Event :=
  [Event.onNetworkAvailability true 0, Event.setBitrates 0 300 10000 0,
    Event.setEstimatedBitrate 60 false 1, Event.enablePeriodicAlrProbing true,
    Event.setAlrStartTime (some 1)]

/-- State reached by `demo_esA`: probing complete, ALR active, estimate 60. -/
def demo_sA : ProbeControllerState := runState cfg0 (initState false) demo_esA

/-- Scenario middle: a `Reset` at t = 6 (right after the ALR probe emitted at
t = 6 from `demo_sA`), then ALR is re-established, the estimate is restored,
a small maximum makes the re-initial probing attempt hit the skip rule (so the
state reaches `kProbingComplete` with `time_last_probing_initiated` back at
`-∞`), and the estimate drops below the skip threshold again. -/
def demo_esB : List Event :=
  [Event.reset 6, Event.setAlrStartTime (some 6),
    Event.setEstimatedBitrate 60 false 7, Event.setMaxBitrate 100,
    Event.onNetworkAvailability true 7, Event.setBitrates 0 50 100 7,
    Event.setEstimatedBitrate 40 false (15 / 2)]

/-- State reached by running `demo_esB` after the ALR probe of `demo_sA` at
t = 6. -/
def demo_sB : ProbeControllerState :=
  runState cfg0 (ProbeController.Process cfg0 demo_sA 6).2 demo_esB

/-- Scenario for the `Process` timeout: initial probing at t = 0 leaves the
controller waiting; two network-state estimates then raise
`send_probe_on_next_process_interval` (capacity 100 then 1000, a 10x fast
rampup). -/
def demo_esC : List Event :=
  [Event.onNetworkAvailability true 0, Event.setBitrates 0 300 5000 0,
    Event.setNetworkStateEstimate 100, Event.setNetworkStateEstimate 1000]

/-- State reached by `demo_esC`: waiting for a probing result since t = 0 with
the send-probe flag raised. -/
def demo_sC : ProbeControllerState := runState cfg0 (initState false) demo_esC

/-- State after the network comes up and `SetBitrates(50, 300, 5000, 0)` emits
the two initial probes: waiting with threshold `1800 * 0.7 = 1260`. -/
def demo_sW : ProbeControllerState :=
  runState cfg0 (initState false)
    [Event.onNetworkAvailability true 0, Event.setBitrates 50 300 5000 0]


lemma demo_sA_eq : demo_sA = {
        network_available := true,
        bwe_limited_due_to_packet_loss := false,
        state := State.kProbingComplete,
        min_bitrate_to_probe_further := none,
        time_last_probing_initiated := some 0,
        estimated_bitrate := 60,
        send_probe_on_next_process_interval := false,
        network_estimate := none,
        start_bitrate := 300,
        max_bitrate := some 10000,
        last_bwe_drop_probing_time := 0,
        alr_start_time := some 1,
        alr_end_time := none,
        enable_periodic_alr_probing := true,
        time_of_last_large_drop := none,
        bitrate_before_last_large_drop := 0,
        max_total_allocated_bitrate := 0,
        in_rapid_recovery_experiment := false,
        next_probe_cluster_id := 3 } := by
  norm_num [demo_sA, demo_esA, runState, step, cfg0, initState, ProbeController.Process,
    ProbeController.process_after_timeout, ProbeController.after_timeout_check,
    ProbeController.SetBitrates, ProbeController.OnMaxTotalAllocatedBitrate,
    ProbeController.OnNetworkAvailability, ProbeController.SetEstimatedBitrate,
    ProbeController.EnablePeriodicAlrProbing, ProbeController.SetAlrStartTimeMs,
    ProbeController.SetAlrEndedTimeMs, ProbeController.RequestProbe,
    ProbeController.SetMaxBitrate, ProbeController.SetNetworkStateEstimate,
    ProbeController.Reset, ProbeController.InitiateExponentialProbing,
    ProbeController.InitiateProbing, ProbeController.TimeForAlrProbe,
    ProbeController.TimeForNetworkStateProbe, exp_probe_rates, adjusted_rates,
    loss_adjusted, clamp_to_max, below_max, skip_probing,
    ProbeControllerState.estimate_to_compare, ProbeControllerState.alr_active,
    rate_limit_ok, timeout_due, kProbeClusterTimeout, meets_threshold,
    large_drop_guard, old_max_exceeded, mk_clusters, probe_duration]

lemma demo_process_A :
    ProbeController.Process cfg0 demo_sA 6
      = ([{ at_time := 6, target_data_rate := 120, target_duration := 3 / 100,
            target_probe_count := 5, id := 3 }],
        {
        network_available := true,
        bwe_limited_due_to_packet_loss := false,
        state := State.kWaitingForProbingResult,
        min_bitrate_to_probe_further := some 84,
        time_last_probing_initiated := some 6,
        estimated_bitrate := 60,
        send_probe_on_next_process_interval := false,
        network_estimate := none,
        start_bitrate := 300,
        max_bitrate := some 10000,
        last_bwe_drop_probing_time := 0,
        alr_start_time := some 1,
        alr_end_time := none,
        enable_periodic_alr_probing := true,
        time_of_last_large_drop := none,
        bitrate_before_last_large_drop := 0,
        max_total_allocated_bitrate := 0,
        in_rapid_recovery_experiment := false,
        next_probe_cluster_id := 4 }) := by
  rw [demo_sA_eq]
  norm_num [runState, step, cfg0, initState, ProbeController.Process,
    ProbeController.process_after_timeout, ProbeController.after_timeout_check,
    ProbeController.SetBitrates, ProbeController.OnMaxTotalAllocatedBitrate,
    ProbeController.OnNetworkAvailability, ProbeController.SetEstimatedBitrate,
    ProbeController.EnablePeriodicAlrProbing, ProbeController.SetAlrStartTimeMs,
    ProbeController.SetAlrEndedTimeMs, ProbeController.RequestProbe,
    ProbeController.SetMaxBitrate, ProbeController.SetNetworkStateEstimate,
    ProbeController.Reset, ProbeController.InitiateExponentialProbing,
    ProbeController.InitiateProbing, ProbeController.TimeForAlrProbe,
    ProbeController.TimeForNetworkStateProbe, exp_probe_rates, adjusted_rates,
    loss_adjusted, clamp_to_max, below_max, skip_probing,
    ProbeControllerState.estimate_to_compare, ProbeControllerState.alr_active,
    rate_limit_ok, timeout_due, kProbeClusterTimeout, meets_threshold,
    large_drop_guard, old_max_exceeded, mk_clusters, probe_duration]

set_option maxHeartbeats 4000000 in
lemma demo_sB_eq : demo_sB = {
        network_available := true,
        bwe_limited_due_to_packet_loss := false,
        state := State.kProbingComplete,
        min_bitrate_to_probe_further := none,
        time_last_probing_initiated := none,
        estimated_bitrate := 40,
        send_probe_on_next_process_interval := false,
        network_estimate := none,
        start_bitrate := 50,
        max_bitrate := some 100,
        last_bwe_drop_probing_time := 0,
        alr_start_time := some 6,
        alr_end_time := none,
        enable_periodic_alr_probing := true,
        time_of_last_large_drop := none,
        bitrate_before_last_large_drop := 0,
        max_total_allocated_bitrate := 0,
        in_rapid_recovery_experiment := false,
        next_probe_cluster_id := 4 } := by
  unfold demo_sB
  rw [demo_process_A]
  norm_num [demo_esB, runState, step, cfg0, initState, ProbeController.Process,
    ProbeController.process_after_timeout, ProbeController.after_timeout_check,
    ProbeController.SetBitrates, ProbeController.OnMaxTotalAllocatedBitrate,
    ProbeController.OnNetworkAvailability, ProbeController.SetEstimatedBitrate,
    ProbeController.EnablePeriodicAlrProbing, ProbeController.SetAlrStartTimeMs,
    ProbeController.SetAlrEndedTimeMs, ProbeController.RequestProbe,
    ProbeController.SetMaxBitrate, ProbeController.SetNetworkStateEstimate,
    ProbeController.Reset, ProbeController.InitiateExponentialProbing,
    ProbeController.InitiateProbing, ProbeController.TimeForAlrProbe,
    ProbeController.TimeForNetworkStateProbe, exp_probe_rates, adjusted_rates,
    loss_adjusted, clamp_to_max, below_max, skip_probing,
    ProbeControllerState.estimate_to_compare, ProbeControllerState.alr_active,
    rate_limit_ok, timeout_due, kProbeClusterTimeout, meets_threshold,
    large_drop_guard, old_max_exceeded, mk_clusters, probe_duration]

lemma demo_sC_eq : demo_sC = {
        network_available := true,
        bwe_limited_due_to_packet_loss := false,
        state := State.kWaitingForProbingResult,
        min_bitrate_to_probe_further := some 1260,
        time_last_probing_initiated := some 0,
        estimated_bitrate := 0,
        send_probe_on_next_process_interval := true,
        network_estimate := some 1000,
        start_bitrate := 300,
        max_bitrate := some 5000,
        last_bwe_drop_probing_time := 0,
        alr_start_time := none,
        alr_end_time := none,
        enable_periodic_alr_probing := false,
        time_of_last_large_drop := none,
        bitrate_before_last_large_drop := 0,
        max_total_allocated_bitrate := 0,
        in_rapid_recovery_experiment := false,
        next_probe_cluster_id := 3 } := by
  norm_num [demo_sC, demo_esC, runState, step, cfg0, initState, ProbeController.Process,
    ProbeController.process_after_timeout, ProbeController.after_timeout_check,
    ProbeController.SetBitrates, ProbeController.OnMaxTotalAllocatedBitrate,
    ProbeController.OnNetworkAvailability, ProbeController.SetEstimatedBitrate,
    ProbeController.EnablePeriodicAlrProbing, ProbeController.SetAlrStartTimeMs,
    ProbeController.SetAlrEndedTimeMs, ProbeController.RequestProbe,
    ProbeController.SetMaxBitrate, ProbeController.SetNetworkStateEstimate,
    ProbeController.Reset, ProbeController.InitiateExponentialProbing,
    ProbeController.InitiateProbing, ProbeController.TimeForAlrProbe,
    ProbeController.TimeForNetworkStateProbe, exp_probe_rates, adjusted_rates,
    loss_adjusted, clamp_to_max, below_max, skip_probing,
    ProbeControllerState.estimate_to_compare, ProbeControllerState.alr_active,
    rate_limit_ok, timeout_due, kProbeClusterTimeout, meets_threshold,
    large_drop_guard, old_max_exceeded, mk_clusters, probe_duration]

lemma demo_sW_eq : demo_sW = {
        network_available := true,
        bwe_limited_due_to_packet_loss := false,
        state := State.kWaitingForProbingResult,
        min_bitrate_to_probe_further := some 1260,
        time_last_probing_initiated := some 0,
        estimated_bitrate := 0,
        send_probe_on_next_process_interval := false,
        network_estimate := none,
        start_bitrate := 300,
        max_bitrate := some 5000,
        last_bwe_drop_probing_time := 0,
        alr_start_time := none,
        alr_end_time := none,
        enable_periodic_alr_probing := false,
        time_of_last_large_drop := none,
        bitrate_before_last_large_drop := 0,
        max_total_allocated_bitrate := 0,
        in_rapid_recovery_experiment := false,
        next_probe_cluster_id := 3 } := by
  norm_num [demo_sW, runState, step, cfg0, initState, ProbeController.Process,
    ProbeController.process_after_timeout, ProbeController.after_timeout_check,
    ProbeController.SetBitrates, ProbeController.OnMaxTotalAllocatedBitrate,
    ProbeController.OnNetworkAvailability, ProbeController.SetEstimatedBitrate,
    ProbeController.EnablePeriodicAlrProbing, ProbeController.SetAlrStartTimeMs,
    ProbeController.SetAlrEndedTimeMs, ProbeController.RequestProbe,
    ProbeController.SetMaxBitrate, ProbeController.SetNetworkStateEstimate,
    ProbeController.Reset, ProbeController.InitiateExponentialProbing,
    ProbeController.InitiateProbing, ProbeController.TimeForAlrProbe,
    ProbeController.TimeForNetworkStateProbe, exp_probe_rates, adjusted_rates,
    loss_adjusted, clamp_to_max, below_max, skip_probing,
    ProbeControllerState.estimate_to_compare, ProbeControllerState.alr_active,
    rate_limit_ok, timeout_due, kProbeClusterTimeout, meets_threshold,
    large_drop_guard, old_max_exceeded, mk_clusters, probe_duration]

/-- C1: for every sequence of events on one ProbeController instance, the ids
of emitted ProbeClusterConfig records are exactly `1, 2, 3, ...` in call order
— strictly increasing and starting at 1 — and since the statement holds for
arbitrary sequences, in particular ones containing `Reset` events, a cluster
emitted after a `Reset` still carries an id strictly greater than every id
emitted before it (`Reset` preserves `next_probe_cluster_id`). -/
theorem c1_cluster_ids_consecutive_from_one (cfg : ProbeControllerConfig)
    (in_rapid : Bool) (es : List Event) :
    (runOutput cfg (initState in_rapid) es).map (·.id)
        = expected_ids 1 (runOutput cfg (initState in_rapid) es).length
      ∧ ((runOutput cfg (initState in_rapid) es).map (·.id)).Pairwise (· < ·) := by
  have h := runOutput_ids cfg es (initState in_rapid)
  have h1 : (initState in_rapid).next_probe_cluster_id = 1 := rfl
  rw [h1] at h
  exact ⟨h, h ▸ expected_ids_pairwise 1 _⟩

/-- C4: whenever the common emission path `InitiateProbing` is reached with the
network available and
`skip_if_estimate_larger_than_fraction_of_max * max_bitrate ≤
min(estimated_bitrate, network_estimate.link_capacity_upper)`, no cluster at
all is emitted — the whole requested batch, for any batch and any
`probe_further` flag — and the resulting state is `kProbingComplete`. -/
theorem c4_skip_rule_drops_batch (cfg : ProbeControllerConfig)
    (s : ProbeControllerState) (now mx : ℚ) (bs : List ℚ) (pf : Bool)
    (hav : s.network_available = true)
    (hmx : s.max_bitrate = some mx)
    (hskip : cfg.skip_if_estimate_larger_than_fraction_of_max * mx
        ≤ s.estimate_to_compare) :
    ProbeController.InitiateProbing cfg s now bs pf
      = ([], { s with state := State.kProbingComplete }) := by
  have h1 : skip_probing cfg s = true := by
    simp [skip_probing, hmx, hskip]
  unfold ProbeController.InitiateProbing
  rw [if_neg (by simp [hav]), if_pos h1]

/-- Witness for C4: a controller with estimate 60, maximum 100 and skip
fraction one half (`50 ≤ 60`) drops a requested probe at rate 250 and
completes probing. -/
theorem c4_witness :
    ProbeController.InitiateProbing cfg0
        { initState false with
          network_available := true,
          max_bitrate := some 100,
          estimated_bitrate := 60 } 3 [250] true
      = ([], { initState false with
          network_available := true,
          max_bitrate := some 100,
          estimated_bitrate := 60,
          state := State.kProbingComplete }) :=
  c4_skip_rule_drops_batch cfg0
    { initState false with
      network_available := true,
      max_bitrate := some 100,
      estimated_bitrate := 60 } 3 100 [250] true
    rfl rfl (by norm_num [cfg0, ProbeControllerState.estimate_to_compare, initState])

/-- C5: in every event sequence in which the network is never reported
available, every event returns an empty cluster list: starting from the
construction state (network unavailable) and never executing
`OnNetworkAvailability(true)`, the concatenated output of the whole run is
empty. -/
theorem c5_no_probes_while_network_unavailable (cfg : ProbeControllerConfig)
    (in_rapid : Bool) (es : List Event)
    (h : ∀ e ∈ es, turns_network_on e = false) :
    runOutput cfg (initState in_rapid) es = [] :=
  run_no_network cfg es (initState in_rapid) rfl h

/-- Witness for C5: with the network down, `SetBitrates`,
`OnNetworkAvailability(false)`, `SetEstimatedBitrate`, `Process` and
`RequestProbe` all emit nothing. -/
theorem c5_witness :
    runOutput cfg0 (initState false)
        [Event.setBitrates 0 300 1000 0, Event.onNetworkAvailability false 1,
          Event.setEstimatedBitrate 500 false 2, Event.setAlrStartTime (some 2),
          Event.process 3, Event.requestProbe 4] = [] :=
  c5_no_probes_while_network_unavailable cfg0 false
    [Event.setBitrates 0 300 1000 0, Event.onNetworkAvailability false 1,
      Event.setEstimatedBitrate 500 false 2, Event.setAlrStartTime (some 2),
      Event.process 3, Event.requestProbe 4] (by decide)

/-- C2: the first event that establishes `network_available = true`,
`start_bitrate > 0` and `state = kInit` — either a `SetBitrates` or an
`OnNetworkAvailability(true)` — emits exactly the initial exponential probes:
one cluster at `start_bitrate * first_exponential_probe_scale` when no second
scale is configured and additionally one at
`start_bitrate * second_exponential_probe_scale` when it is (that is the shape
of `exp_probe_rates`); afterwards `min_bitrate_to_probe_further` equals the
largest emitted rate times `further_probe_threshold` and the state is
`kWaitingForProbingResult`. The side conditions say that the emission is not
deflected: the skip rule does not fire, loss-limited clamping is off, the
second scale is at least the first, and the rates fit under the maximum. -/
theorem c2_initial_exponential_probing (cfg : ProbeControllerConfig) :
    (∀ (s : ProbeControllerState) (mn st mx t : ℚ),
      s.state = State.kInit → s.network_available = true →
      (cfg.limit_probe_target_rate_to_loss_bwe
          && s.bwe_limited_due_to_packet_loss) = false →
      skip_probing cfg
          { s with start_bitrate := st, max_bitrate := some mx } = false →
      0 ≤ mn → mn ≤ st → st ≤ mx → 0 < st →
      (∀ p2 ∈ cfg.second_exponential_probe_scale,
        st * cfg.first_exponential_probe_scale ≤ st * p2) →
      largest_exp_probe_rate cfg st ≤ mx →
      ((ProbeController.SetBitrates cfg s mn st mx t).1.map (·.target_data_rate)
          = exp_probe_rates cfg st
        ∧ (ProbeController.SetBitrates cfg s mn st mx t).2.state
            = State.kWaitingForProbingResult
        ∧ (ProbeController.SetBitrates cfg s mn st mx t).2.min_bitrate_to_probe_further
            = some (largest_exp_probe_rate cfg st * cfg.further_probe_threshold)))
    ∧ (∀ (s : ProbeControllerState) (t : ℚ),
      s.state = State.kInit → s.network_available = false →
      (cfg.limit_probe_target_rate_to_loss_bwe
          && s.bwe_limited_due_to_packet_loss) = false →
      skip_probing cfg s = false →
      0 < s.start_bitrate →
      (∀ p2 ∈ cfg.second_exponential_probe_scale,
        s.start_bitrate * cfg.first_exponential_probe_scale
          ≤ s.start_bitrate * p2) →
      (∀ mx ∈ s.max_bitrate, largest_exp_probe_rate cfg s.start_bitrate ≤ mx) →
      ((ProbeController.OnNetworkAvailability cfg s true t).1.map (·.target_data_rate)
          = exp_probe_rates cfg s.start_bitrate
        ∧ (ProbeController.OnNetworkAvailability cfg s true t).2.state
            = State.kWaitingForProbingResult
        ∧ (ProbeController.OnNetworkAvailability cfg s true t).2.min_bitrate_to_probe_further
            = some (largest_exp_probe_rate cfg s.start_bitrate
                * cfg.further_probe_threshold))) := by
  constructor
  · intro s mn st mx t hs hav hloss hskip h0 h1 h2 h3 hmono hlargest
    have hval : ¬(mn < 0 ∨ st < 0 ∨ mx < 0 ∨ st < mn ∨ mx < st) := by
      push_neg
      exact ⟨by linarith, by linarith, by linarith, by linarith, by linarith⟩
    have hclamp : ∀ mxx ∈ ({ s with start_bitrate := st, max_bitrate := some mx }
          : ProbeControllerState).max_bitrate,
        largest_exp_probe_rate cfg
          ({ s with start_bitrate := st, max_bitrate := some mx }
            : ProbeControllerState).start_bitrate ≤ mxx := by
      intro mxx hmxx
      have hx : mx = mxx := by simpa using hmxx
      rw [← hx]
      exact hlargest
    have hspec := ProbeController.InitiateExponentialProbing_spec cfg
      { s with start_bitrate := st, max_bitrate := some mx } t hav hskip hloss
      hmono hclamp
    have hred : ProbeController.SetBitrates cfg s mn st mx t
        = ProbeController.InitiateExponentialProbing cfg
            { s with start_bitrate := st, max_bitrate := some mx } t := by
      simp only [ProbeController.SetBitrates]
      rw [if_neg hval]
      have hst : ({ s with start_bitrate := st, max_bitrate := some mx }
          : ProbeControllerState).state = State.kInit := hs
      split <;> simp_all
    rw [hred]
    exact hspec
  · intro s t hs hav hloss hskip hpos hmono hclamp
    have hred : ProbeController.OnNetworkAvailability cfg s true t
        = ProbeController.InitiateExponentialProbing cfg
            { s with network_available := true } t := by
      simp only [ProbeController.OnNetworkAvailability]
      rw [if_pos ⟨hav, trivial, hs, hpos⟩]
    rw [hred]
    exact ProbeController.InitiateExponentialProbing_spec cfg
      { s with network_available := true } t rfl hskip hloss hmono hclamp

/-- Witness for C2: spec §8 scenario 1 — `SetBitrates(50, 300, 5000)` on an
available network in `kInit` emits the clusters at rates 900 and 1800 and sets
the threshold to `1800 * 0.7 = 1260`. -/
theorem c2_witness :
    (ProbeController.SetBitrates cfg0
          { initState false with network_available := true } 50 300 5000 0).1.map
        (·.target_data_rate) = exp_probe_rates cfg0 300
      ∧ (ProbeController.SetBitrates cfg0
          { initState false with network_available := true } 50 300 5000 0).2.state
          = State.kWaitingForProbingResult
      ∧ (ProbeController.SetBitrates cfg0
          { initState false with network_available := true }
            50 300 5000 0).2.min_bitrate_to_probe_further
          = some (largest_exp_probe_rate cfg0 300 * cfg0.further_probe_threshold) :=
  (c2_initial_exponential_probing cfg0).1
    { initState false with network_available := true } 50 300 5000 0
    rfl rfl rfl
    (by norm_num [skip_probing, ProbeControllerState.estimate_to_compare,
      initState, cfg0])
    (by norm_num) (by norm_num) (by norm_num) (by norm_num)
    (by
      intro p2 hp
      have h6 : (6 : ℚ) = p2 := by simpa [cfg0] using hp
      rw [← h6]
      norm_num [cfg0])
    (by norm_num [largest_exp_probe_rate, cfg0, max_def])

/-- C3: a `SetEstimatedBitrate(bitrate, loss, at_time)` received while waiting
for a probing result with `bitrate ≥ min_bitrate_to_probe_further` emits
exactly one follow-up cluster at `bitrate * further_exponential_probe_scale`
clamped to `max_bitrate`, and leaves the controller waiting again with the new
threshold `emitted_rate * further_probe_threshold`, so the exponential chain
can continue on the next estimate. The side conditions say the emission is not
deflected: network available, no skip, no loss-limited clamping. -/
theorem c3_follow_up_probe (cfg : ProbeControllerConfig)
    (s : ProbeControllerState) (bitrate m t : ℚ) (loss : Bool)
    (hw : s.state = State.kWaitingForProbingResult)
    (hm : s.min_bitrate_to_probe_further = some m)
    (hmb : m ≤ bitrate)
    (hav : s.network_available = true)
    (hskip : skip_probing cfg s = false)
    (hloss : (cfg.limit_probe_target_rate_to_loss_bwe && loss) = false) :
    (ProbeController.SetEstimatedBitrate cfg s bitrate loss t).1.map
        (·.target_data_rate)
        = [clamp_to_max (bitrate * cfg.further_exponential_probe_scale) s.max_bitrate]
      ∧ (ProbeController.SetEstimatedBitrate cfg s bitrate loss t).2.state
          = State.kWaitingForProbingResult
      ∧ (ProbeController.SetEstimatedBitrate cfg s bitrate loss t).2.min_bitrate_to_probe_further
          = some (clamp_to_max (bitrate * cfg.further_exponential_probe_scale)
                s.max_bitrate * cfg.further_probe_threshold) := by
  have hmt : meets_threshold s.min_bitrate_to_probe_further bitrate = true := by
    rw [hm]
    simp [meets_threshold, hmb]
  have hsk0 : skip_probing cfg
      ({ s with bwe_limited_due_to_packet_loss := loss }
        : ProbeControllerState) = false := hskip
  simp only [ProbeController.SetEstimatedBitrate]
  rw [if_pos (⟨hw, hmt⟩ : s.state = State.kWaitingForProbingResult
    ∧ meets_threshold s.min_bitrate_to_probe_further bitrate = true)]
  simp only [ProbeController.InitiateProbing]
  rw [if_neg (by simp [hav]), if_neg (by simp [hsk0]), if_neg (by simp)]
  refine ⟨?_, ?_, ?_⟩ <;>
    simp [mk_clusters_rates, adjusted_rates, loss_adjusted, hloss]

/-- Witness for C3: spec §8 scenario 2 — from the waiting state with threshold
1260, an estimate of 1500 emits one cluster at `1500 * 2 = 3000` (clamped to
5000) and the new threshold is `3000 * 0.7 = 2100`. -/
theorem c3_witness :
    (ProbeController.SetEstimatedBitrate cfg0 demo_sW 1500 false 1).1.map
        (·.target_data_rate)
        = [clamp_to_max (1500 * cfg0.further_exponential_probe_scale)
            demo_sW.max_bitrate]
      ∧ (ProbeController.SetEstimatedBitrate cfg0 demo_sW 1500 false 1).2.state
          = State.kWaitingForProbingResult
      ∧ (ProbeController.SetEstimatedBitrate cfg0
            demo_sW 1500 false 1).2.min_bitrate_to_probe_further
          = some (clamp_to_max (1500 * cfg0.further_exponential_probe_scale)
              demo_sW.max_bitrate * cfg0.further_probe_threshold) :=
  c3_follow_up_probe cfg0 demo_sW 1500 1260 1 false (by rw [demo_sW_eq])
    (by rw [demo_sW_eq]) (by norm_num) (by rw [demo_sW_eq])
    (by rw [demo_sW_eq]
        norm_num [skip_probing, ProbeControllerState.estimate_to_compare, cfg0])
    rfl

/-- Counterexample to C6 as stated: when the `Process` call that times out
also has `send_probe_on_next_process_interval` raised (here by a 10x
network-state fast rampup observed while waiting), the same call emits a
network-state probe after the step-1 transition, so the state after the call
is `kWaitingForProbingResult` again — not `kProbingComplete` — and
`min_bitrate_to_probe_further` is finite, not `+∞`. -/
theorem c6_counterexample :
    demo_sC.state = State.kWaitingForProbingResult
      ∧ timeout_due demo_sC.time_last_probing_initiated 10 = true
      ∧ (ProbeController.Process cfg0 demo_sC 10).2.state
          ≠ State.kProbingComplete
      ∧ (ProbeController.Process cfg0 demo_sC 10).2.min_bitrate_to_probe_further
          ≠ none := by
  rw [demo_sC_eq]
  refine ⟨rfl, ?_, ?_, ?_⟩ <;>
    norm_num [runState, step, cfg0, initState, ProbeController.Process,
      ProbeController.process_after_timeout, ProbeController.after_timeout_check,
      ProbeController.SetBitrates, ProbeController.OnMaxTotalAllocatedBitrate,
      ProbeController.OnNetworkAvailability, ProbeController.SetEstimatedBitrate,
      ProbeController.EnablePeriodicAlrProbing, ProbeController.SetAlrStartTimeMs,
      ProbeController.SetAlrEndedTimeMs, ProbeController.RequestProbe,
      ProbeController.SetMaxBitrate, ProbeController.SetNetworkStateEstimate,
      ProbeController.Reset, ProbeController.InitiateExponentialProbing,
      ProbeController.InitiateProbing, ProbeController.TimeForAlrProbe,
      ProbeController.TimeForNetworkStateProbe, exp_probe_rates, adjusted_rates,
      loss_adjusted, clamp_to_max, below_max, skip_probing,
      ProbeControllerState.estimate_to_compare, ProbeControllerState.alr_active,
      rate_limit_ok, timeout_due, kProbeClusterTimeout, meets_threshold,
      large_drop_guard, old_max_exceeded, mk_clusters, probe_duration] <;>
    decide

/-- C6 (amended): a `Process(at_time)` received while waiting for a probing
result with `at_time - time_last_probing_initiated > kProbeClusterTimeout`
performs the step-1 transition, and — provided the same call does not
immediately emit a new probe (flag-driven, ALR or network-state) — the state
after the call is `kProbingComplete` and `min_bitrate_to_probe_further` is
`+∞` (`none`), so the next `SetEstimatedBitrate` cannot trigger a follow-up
exponential probe. -/
theorem c6_process_timeout_completes (cfg : ProbeControllerConfig)
    (s : ProbeControllerState) (t : ℚ)
    (hw : s.state = State.kWaitingForProbingResult)
    (hto : timeout_due s.time_last_probing_initiated t = true)
    (hemp : (ProbeController.Process cfg s t).1 = []) :
    (ProbeController.Process cfg s t).2.state = State.kProbingComplete
      ∧ (ProbeController.Process cfg s t).2.min_bitrate_to_probe_further
          = none := by
  have hs1 : ProbeController.after_timeout_check s t
      = { s with
          state := State.kProbingComplete,
          min_bitrate_to_probe_further := none } := by
    unfold ProbeController.after_timeout_check
    rw [if_pos ⟨hw, hto⟩]
  exact ProbeController.Process_empty_state_min cfg s t (by rw [hs1])
    (by rw [hs1]) hemp

/-- Witness for C6 (amended): a waiting controller with
`time_last_probing_initiated = 0` and nothing else due completes probing on
`Process(10)` and disables follow-up probing. -/
theorem c6_witness :
    (ProbeController.Process cfg0
        { initState false with
          network_available := true,
          state := State.kWaitingForProbingResult,
          time_last_probing_initiated := some 0 } 10).2.state
        = State.kProbingComplete
      ∧ (ProbeController.Process cfg0
          { initState false with
            network_available := true,
            state := State.kWaitingForProbingResult,
            time_last_probing_initiated := some 0 } 10).2.min_bitrate_to_probe_further
          = none :=
  c6_process_timeout_completes cfg0
    { initState false with
      network_available := true,
      state := State.kWaitingForProbingResult,
      time_last_probing_initiated := some 0 } 10 rfl
    (by norm_num [timeout_due, kProbeClusterTimeout])
    (by norm_num [runState, step, cfg0, initState, ProbeController.Process,
      ProbeController.process_after_timeout, ProbeController.after_timeout_check,
      ProbeController.SetBitrates, ProbeController.OnMaxTotalAllocatedBitrate,
      ProbeController.OnNetworkAvailability, ProbeController.SetEstimatedBitrate,
      ProbeController.EnablePeriodicAlrProbing, ProbeController.SetAlrStartTimeMs,
      ProbeController.SetAlrEndedTimeMs, ProbeController.RequestProbe,
      ProbeController.SetMaxBitrate, ProbeController.SetNetworkStateEstimate,
      ProbeController.Reset, ProbeController.InitiateExponentialProbing,
      ProbeController.InitiateProbing, ProbeController.TimeForAlrProbe,
      ProbeController.TimeForNetworkStateProbe, exp_probe_rates, adjusted_rates,
      loss_adjusted, clamp_to_max, below_max, skip_probing,
      ProbeControllerState.estimate_to_compare, ProbeControllerState.alr_active,
      rate_limit_ok, timeout_due, kProbeClusterTimeout, meets_threshold,
      large_drop_guard, old_max_exceeded, mk_clusters, probe_duration])

/-- Counterexample to C7 as stated: two ALR probes only 2 s apart with
`alr_probing_interval = 5 s`. The run behind `demo_sA` emits an ALR probe at
t = 6; a `Reset` then clears `time_last_probing_initiated` back to `-∞`, the
re-initial probing attempt is swallowed by the skip rule (reaching
`kProbingComplete` without recording a probing time), and the next `Process`
at t = 8 passes the rate-limit guard vacuously and emits a second ALR probe. -/
theorem c7_counterexample :
    EmitsAlrProbe cfg0 demo_sA 6
      ∧ demo_sB = runState cfg0 (ProbeController.Process cfg0 demo_sA 6).2 demo_esB
      ∧ EmitsAlrProbe cfg0 demo_sB 8
      ∧ ¬(6 + cfg0.alr_probing_interval ≤ 8) := by
  refine ⟨?_, rfl, ?_, ?_⟩
  · unfold EmitsAlrProbe
    rw [demo_process_A, demo_sA_eq]
    norm_num [runState, step, cfg0, initState, ProbeController.Process,
      ProbeController.process_after_timeout, ProbeController.after_timeout_check,
      ProbeController.SetBitrates, ProbeController.OnMaxTotalAllocatedBitrate,
      ProbeController.OnNetworkAvailability, ProbeController.SetEstimatedBitrate,
      ProbeController.EnablePeriodicAlrProbing, ProbeController.SetAlrStartTimeMs,
      ProbeController.SetAlrEndedTimeMs, ProbeController.RequestProbe,
      ProbeController.SetMaxBitrate, ProbeController.SetNetworkStateEstimate,
      ProbeController.Reset, ProbeController.InitiateExponentialProbing,
      ProbeController.InitiateProbing, ProbeController.TimeForAlrProbe,
      ProbeController.TimeForNetworkStateProbe, exp_probe_rates, adjusted_rates,
      loss_adjusted, clamp_to_max, below_max, skip_probing,
      ProbeControllerState.estimate_to_compare, ProbeControllerState.alr_active,
      rate_limit_ok, timeout_due, kProbeClusterTimeout, meets_threshold,
      large_drop_guard, old_max_exceeded, mk_clusters, probe_duration]
  · unfold EmitsAlrProbe
    rw [demo_sB_eq]
    norm_num [runState, step, cfg0, initState, ProbeController.Process,
      ProbeController.process_after_timeout, ProbeController.after_timeout_check,
      ProbeController.SetBitrates, ProbeController.OnMaxTotalAllocatedBitrate,
      ProbeController.OnNetworkAvailability, ProbeController.SetEstimatedBitrate,
      ProbeController.EnablePeriodicAlrProbing, ProbeController.SetAlrStartTimeMs,
      ProbeController.SetAlrEndedTimeMs, ProbeController.RequestProbe,
      ProbeController.SetMaxBitrate, ProbeController.SetNetworkStateEstimate,
      ProbeController.Reset, ProbeController.InitiateExponentialProbing,
      ProbeController.InitiateProbing, ProbeController.TimeForAlrProbe,
      ProbeController.TimeForNetworkStateProbe, exp_probe_rates, adjusted_rates,
      loss_adjusted, clamp_to_max, below_max, skip_probing,
      ProbeControllerState.estimate_to_compare, ProbeControllerState.alr_active,
      rate_limit_ok, timeout_due, kProbeClusterTimeout, meets_threshold,
      large_drop_guard, old_max_exceeded, mk_clusters, probe_duration]
  · norm_num [cfg0]

/-- C7 (amended): an ALR probe is only emitted when
`at_time - time_last_probing_initiated ≥ alr_probing_interval` or
`time_last_probing_initiated` is `-∞`; consequently, in any stretch of a run
that contains no `Reset` (the only event that moves
`time_last_probing_initiated` back to `-∞`) and whose timestamps do not go
back in time, two `Process` calls that both emit ALR probes are at least
`alr_probing_interval` apart. -/
theorem c7_alr_spacing_without_reset (cfg : ProbeControllerConfig)
    (s : ProbeControllerState) (es : List Event) (t1 t2 : ℚ)
    (h1 : EmitsAlrProbe cfg s t1)
    (hnr : ∀ e ∈ es, is_reset e = false)
    (ht : ∀ e ∈ es, event_time_ge e t1 = true)
    (h2 : EmitsAlrProbe cfg
        (runState cfg (ProbeController.Process cfg s t1).2 es) t2) :
    t1 + cfg.alr_probing_interval ≤ t2 := by
  have hne : (step cfg s (Event.process t1)).1 ≠ [] := h1.1
  have h0 : (ProbeController.Process cfg s t1).2.time_last_probing_initiated
      = some t1 := step_emit_tlpi cfg s (Event.process t1) hne
  obtain ⟨t0, htl, ht10⟩ := run_tlpi_lb cfg t1 es
    (ProbeController.Process cfg s t1).2 hnr ht ⟨t1, h0, le_refl t1⟩
  have hguard := ProbeController.TimeForAlrProbe_rate_limit cfg _ t2 h2.2.1
  rw [ProbeController.after_timeout_check_tlpi, htl] at hguard
  have hint : cfg.alr_probing_interval ≤ t2 - t0 := by
    simpa [rate_limit_ok] using hguard
  linarith

/-- Witness for C7 (amended): after the ALR probe of `demo_sA` at t = 6 and an
estimate update at t = 7 (no `Reset`), the next ALR probe happens at t = 11 —
exactly `alr_probing_interval = 5` later. -/
theorem c7_witness :
    EmitsAlrProbe cfg0 demo_sA 6
      ∧ (∀ e ∈ ([Event.setEstimatedBitrate 60 false 7] : List Event),
          is_reset e = false)
      ∧ (∀ e ∈ ([Event.setEstimatedBitrate 60 false 7] : List Event),
          event_time_ge e 6 = true)
      ∧ EmitsAlrProbe cfg0
          (runState cfg0 (ProbeController.Process cfg0 demo_sA 6).2
            [Event.setEstimatedBitrate 60 false 7]) 11
      ∧ 6 + cfg0.alr_probing_interval ≤ 11 := by
  have h1 : EmitsAlrProbe cfg0 demo_sA 6 := by
    unfold EmitsAlrProbe
    rw [demo_process_A, demo_sA_eq]
    norm_num [runState, step, cfg0, initState, ProbeController.Process,
      ProbeController.process_after_timeout, ProbeController.after_timeout_check,
      ProbeController.SetBitrates, ProbeController.OnMaxTotalAllocatedBitrate,
      ProbeController.OnNetworkAvailability, ProbeController.SetEstimatedBitrate,
      ProbeController.EnablePeriodicAlrProbing, ProbeController.SetAlrStartTimeMs,
      ProbeController.SetAlrEndedTimeMs, ProbeController.RequestProbe,
      ProbeController.SetMaxBitrate, ProbeController.SetNetworkStateEstimate,
      ProbeController.Reset, ProbeController.InitiateExponentialProbing,
      ProbeController.InitiateProbing, ProbeController.TimeForAlrProbe,
      ProbeController.TimeForNetworkStateProbe, exp_probe_rates, adjusted_rates,
      loss_adjusted, clamp_to_max, below_max, skip_probing,
      ProbeControllerState.estimate_to_compare, ProbeControllerState.alr_active,
      rate_limit_ok, timeout_due, kProbeClusterTimeout, meets_threshold,
      large_drop_guard, old_max_exceeded, mk_clusters, probe_duration]
  have h2 : ∀ e ∈ ([Event.setEstimatedBitrate 60 false 7] : List Event),
      is_reset e = false := by decide
  have h3 : ∀ e ∈ ([Event.setEstimatedBitrate 60 false 7] : List Event),
      event_time_ge e 6 = true := by
    intro e he
    simp only [List.mem_singleton] at he
    subst he
    norm_num [event_time_ge, event_time]
  have h4 : EmitsAlrProbe cfg0
      (runState cfg0 (ProbeController.Process cfg0 demo_sA 6).2
        [Event.setEstimatedBitrate 60 false 7]) 11 := by
    unfold EmitsAlrProbe
    rw [demo_process_A]
    norm_num [runState, step, cfg0, initState, ProbeController.Process,
      ProbeController.process_after_timeout, ProbeController.after_timeout_check,
      ProbeController.SetBitrates, ProbeController.OnMaxTotalAllocatedBitrate,
      ProbeController.OnNetworkAvailability, ProbeController.SetEstimatedBitrate,
      ProbeController.EnablePeriodicAlrProbing, ProbeController.SetAlrStartTimeMs,
      ProbeController.SetAlrEndedTimeMs, ProbeController.RequestProbe,
      ProbeController.SetMaxBitrate, ProbeController.SetNetworkStateEstimate,
      ProbeController.Reset, ProbeController.InitiateExponentialProbing,
      ProbeController.InitiateProbing, ProbeController.TimeForAlrProbe,
      ProbeController.TimeForNetworkStateProbe, exp_probe_rates, adjusted_rates,
      loss_adjusted, clamp_to_max, below_max, skip_probing,
      ProbeControllerState.estimate_to_compare, ProbeControllerState.alr_active,
      rate_limit_ok, timeout_due, kProbeClusterTimeout, meets_threshold,
      large_drop_guard, old_max_exceeded, mk_clusters, probe_duration]
  exact ⟨h1, h2, h3, h4,
    c7_alr_spacing_without_reset cfg0 demo_sA
      [Event.setEstimatedBitrate 60 false 7] 6 11 h1 h2 h3 h4⟩

/-- C8: a `SetBitrates` call violating `min ≤ start ≤ max` or passing a
negative rate is ignored wholesale: the returned list is empty and the whole
stored state — bitrates, state variable, thresholds — is unchanged. -/
theorem c8_invalid_range_ignored (cfg : ProbeControllerConfig)
    (s : ProbeControllerState) (mn st mx t : ℚ)
    (h : st < mn ∨ mx < st ∨ mn < 0 ∨ st < 0 ∨ mx < 0) :
    ProbeController.SetBitrates cfg s mn st mx t = ([], s) := by
  unfold ProbeController.SetBitrates
  rw [if_pos (by tauto)]

/-- Witness for C8: `SetBitrates(300, 50, 5000)` has `min > start` and leaves
the freshly constructed controller untouched. -/
theorem c8_witness :
    ProbeController.SetBitrates cfg0 (initState false) 300 50 5000 0
      = ([], initState false) :=
  c8_invalid_range_ignored cfg0 (initState false) 300 50 5000 0
    (Or.inl (by norm_num))

/-- C9: the five void interface calls `EnablePeriodicAlrProbing`,
`SetAlrStartTimeMs`, `SetAlrEndedTimeMs`, `SetMaxBitrate` and
`SetNetworkStateEstimate` never emit a probe cluster (their return type in the
header is `void`); in particular `SetNetworkStateEstimate` consumes no cluster
id — a fast-rampup or drop-down only raises
`send_probe_on_next_process_interval`, and any resulting probe is emitted by a
later `Process` call. -/
theorem c9_void_events_emit_nothing (cfg : ProbeControllerConfig)
    (s : ProbeControllerState) (b : Bool) (v : Option ℚ) (te mxr cap : ℚ) :
    (step cfg s (Event.enablePeriodicAlrProbing b)).1 = []
      ∧ (step cfg s (Event.setAlrStartTime v)).1 = []
      ∧ (step cfg s (Event.setAlrEndedTime te)).1 = []
      ∧ (step cfg s (Event.setMaxBitrate mxr)).1 = []
      ∧ (step cfg s (Event.setNetworkStateEstimate cap)).1 = []
      ∧ (step cfg s (Event.setNetworkStateEstimate cap)).2.next_probe_cluster_id
          = s.next_probe_cluster_id :=
  ⟨rfl, rfl, rfl, rfl, rfl, rfl⟩

/-- C10: immediately after construction the stored rates default to
`estimated_bitrate = 0`, `start_bitrate = 0`, `max_bitrate = +∞` (`none`),
`max_total_allocated_bitrate = 0`, `min_bitrate_to_probe_further = +∞` and
`time_last_probing_initiated = -∞`; and until a `SetBitrates` or
`SetMaxBitrate` supplies a finite maximum, `max_bitrate` stays `+∞`, so the
clamp-to-max step of the emission path cannot reduce any probe rate. -/
theorem c10_construction_defaults (cfg : ProbeControllerConfig)
    (in_rapid in_rapid' : Bool) (es : List Event) (q : ℚ)
    (h : ∀ e ∈ es, supplies_max_bitrate e = false) :
    (initState in_rapid).estimated_bitrate = 0
      ∧ (initState in_rapid).start_bitrate = 0
      ∧ (initState in_rapid).max_bitrate = none
      ∧ (initState in_rapid).max_total_allocated_bitrate = 0
      ∧ (initState in_rapid).min_bitrate_to_probe_further = none
      ∧ (initState in_rapid).time_last_probing_initiated = none
      ∧ (runState cfg (initState in_rapid') es).max_bitrate = none
      ∧ clamp_to_max q (runState cfg (initState in_rapid') es).max_bitrate = q := by
  have hm : (runState cfg (initState in_rapid') es).max_bitrate = none :=
    run_max_none cfg es (initState in_rapid') rfl h
  exact ⟨rfl, rfl, rfl, rfl, rfl, rfl, hm, by rw [hm]; rfl⟩

/-- Witness for C10: a run of `Process`, `Reset` and `SetEstimatedBitrate`
never supplies a maximum, so `max_bitrate` stays infinite and clamping rate 7
is the identity. -/
theorem c10_witness :
    (initState true).estimated_bitrate = 0
      ∧ (initState true).start_bitrate = 0
      ∧ (initState true).max_bitrate = none
      ∧ (initState true).max_total_allocated_bitrate = 0
      ∧ (initState true).min_bitrate_to_probe_further = none
      ∧ (initState true).time_last_probing_initiated = none
      ∧ (runState cfg0 (initState false)
          [Event.process 0, Event.reset 1,
            Event.setEstimatedBitrate 100 false 2]).max_bitrate = none
      ∧ clamp_to_max 7 (runState cfg0 (initState false)
          [Event.process 0, Event.reset 1,
            Event.setEstimatedBitrate 100 false 2]).max_bitrate = 7 :=
  c10_construction_defaults cfg0 true false
    [Event.process 0, Event.reset 1, Event.setEstimatedBitrate 100 false 2] 7
    (by decide)

end WebRTC
